import Mathlib

/-!
Verification of the endpoint-resolution, authentication, request/response
and signed-URL core of the ConoHa VPS v3 Go SDK, as a shallow embedding.
Strings are modelled as sequences of characters; the URLs and JSON bodies
relevant here are ASCII, where character positions coincide with Go's byte
positions.
-/

namespace Conoha

/-! ## String helpers mirroring the Go standard library -/

/-- ASCII upper-casing of one character (`strings.ToUpper` restricted to the
ASCII inputs this client handles). -/
def asciiUpperChar (ch : Char) : Char :=
  if 'a' ≤ ch ∧ ch ≤ 'z' then Char.ofNat (ch.toNat - 32) else ch

/-- `strings.ToUpper` (ASCII fragment). -/
def asciiToUpper (s : String) : String :=
  String.mk (s.data.map asciiUpperChar)

/-- Whitespace recognised by `strings.TrimSpace` (ASCII fragment). -/
def isGoSpace (ch : Char) : Bool :=
  ch = ' ' || ch = '\t' || ch = '\n' || ch = '\r' || ch.toNat = 11 || ch.toNat = 12

/-- `strings.TrimSpace` (ASCII fragment). -/
def trimSpace (s : String) : String :=
  String.mk (((s.data.dropWhile isGoSpace).reverse.dropWhile isGoSpace).reverse)

/-- `strings.TrimRight(s, "/")`: drop every trailing slash. -/
def trimRightSlashes (s : String) : String :=
  String.mk ((s.data.reverse.dropWhile (· = '/')).reverse)

/-- Helper for `strings.Index`: position of the first occurrence of `sub`. -/
def indexOfSubAux (sub : List Char) : List Char → Nat → Option Nat
  | [], i => if sub.isEmpty then some i else none
  | c :: t, i =>
    if sub.isPrefixOf (c :: t) then some i else indexOfSubAux sub t (i + 1)

/-- `strings.Index(s, sub)`, as an `Option` instead of `-1` for "absent". -/
def indexOfSub (s sub : String) : Option Nat :=
  indexOfSubAux sub.data s.data 0

/-- `strings.Contains`. -/
def containsStr (s sub : String) : Bool :=
  (indexOfSub s sub).isSome

/-- Helper for `strings.ReplaceAll` with a non-empty pattern. -/
def replaceAllAux (fuel : Nat) (pat repl : List Char) (cs : List Char) : List Char :=
  match fuel, cs with
  | 0, cs => cs
  | _, [] => []
  | fuel + 1, c :: t =>
    if pat.isPrefixOf (c :: t) then
      repl ++ replaceAllAux fuel pat repl ((c :: t).drop pat.length)
    else c :: replaceAllAux fuel pat repl t

/-- `strings.ReplaceAll` (the one pattern used here, `"%2F"`, is non-empty). -/
def replaceAll (s pat repl : String) : String :=
  if pat = "" then s
  else String.mk (replaceAllAux s.data.length pat.data repl.data s.data)

/-- Helper for `strings.Split` with a non-empty separator. -/
def splitOnSubAux (fuel : Nat) (sep : List Char) (cs cur : List Char) :
    List (List Char) :=
  match fuel, cs with
  | 0, _ => [cur.reverse]
  | _, [] => [cur.reverse]
  | fuel + 1, c :: t =>
    if sep.isPrefixOf (c :: t) then
      cur.reverse :: splitOnSubAux fuel sep ((c :: t).drop sep.length) []
    else splitOnSubAux fuel sep t (c :: cur)

/-- `strings.Split` (every separator used here is non-empty). -/
def goSplit (s sep : String) : List String :=
  if sep = "" then [s]
  else (splitOnSubAux s.data.length sep.data s.data []).map String.mk

/-- `s[:n]` on the character sequence. -/
def strTake (s : String) (n : Nat) : String :=
  String.mk (s.data.take n)

/-- ASCII case-insensitive character comparison. -/
def eqFoldChar (a b : Char) : Bool :=
  asciiUpperChar a = asciiUpperChar b

/-- `strings.EqualFold` (ASCII fragment), as used by `encoding/json` to match
object keys against struct field names. -/
def eqFold (a b : String) : Bool :=
  (a.data.zip b.data).all (fun p => eqFoldChar p.1 p.2) && a.length = b.length

/-! ## The client data model (`client.go`) -/

/-- `DefaultRegion`. -/
def DefaultRegion : String := "c3j1"

/-- `Client`: the mutable configuration bag.  The HTTP transport handle and
the lock are not data in this embedding; the lock's usage is reflected by the
event traces produced by `authenticate`. -/
structure Client where
  Token : String
  TenantID : String
  Region : String
  IdentityURL : String
  ComputeURL : String
  BlockStorageURL : String
  ImageServiceURL : String
  NetworkingURL : String
  LBaaSURL : String
  ObjectStorageURL : String
  DNSServiceURL : String
  /-- `explicitURLs map[string]bool`: the set of service-name keys pinned by
  the caller (membership in the list models `m[k] == true`). -/
  explicitURLs : List String
  /-- `explicitRegion`. -/
  explicitRegion : Bool
deriving DecidableEq, Repr

/-- The zero `Client` allocated at the start of `NewClient` (the Go literal
sets `Region: DefaultRegion` and an empty `explicitURLs` map). -/
def newClientInit : Client :=
  { Token := "", TenantID := "", Region := DefaultRegion
    IdentityURL := "", ComputeURL := "", BlockStorageURL := ""
    ImageServiceURL := "", NetworkingURL := "", LBaaSURL := ""
    ObjectStorageURL := "", DNSServiceURL := ""
    explicitURLs := [], explicitRegion := false }

/-- The eight service families, keyed in the source by the strings returned
by `serviceKey`. -/
inductive ServiceFamily where
  | identity | compute | blockStorage | image | network
  | loadBalancer | objectStore | dns
deriving DecidableEq, Repr

/-- The `explicitURLs` map key of a family (the `ServiceType*` constants). -/
def serviceKey : ServiceFamily → String
  | .identity => "identity"
  | .compute => "compute"
  | .blockStorage => "block-storage"
  | .image => "image"
  | .network => "network"
  | .loadBalancer => "load-balancer"
  | .objectStore => "object-store"
  | .dns => "dns"

/-- The URL field of a family. -/
def Client.serviceURL (c : Client) : ServiceFamily → String
  | .identity => c.IdentityURL
  | .compute => c.ComputeURL
  | .blockStorage => c.BlockStorageURL
  | .image => c.ImageServiceURL
  | .network => c.NetworkingURL
  | .loadBalancer => c.LBaaSURL
  | .objectStore => c.ObjectStorageURL
  | .dns => c.DNSServiceURL

/-- Assign the URL field of a family. -/
def Client.setServiceURL (c : Client) : ServiceFamily → String → Client
  | .identity, u => { c with IdentityURL := u }
  | .compute, u => { c with ComputeURL := u }
  | .blockStorage, u => { c with BlockStorageURL := u }
  | .image, u => { c with ImageServiceURL := u }
  | .network, u => { c with NetworkingURL := u }
  | .loadBalancer, u => { c with LBaaSURL := u }
  | .objectStore, u => { c with ObjectStorageURL := u }
  | .dns, u => { c with DNSServiceURL := u }

/-- `c.explicitURLs[key] == true` for a family: the family is pinned. -/
def Client.pinned (c : Client) (f : ServiceFamily) : Bool :=
  c.explicitURLs.contains (serviceKey f)

/-! ## Functional options -/

/-- `ClientOption`. -/
def ClientOption : Type := Client → Client

/-- `WithRegion`. -/
def WithRegion (region : String) : ClientOption := fun c =>
  { c with Region := region, explicitRegion := true }

/-- `WithIdentityURL`. -/
def WithIdentityURL (url : String) : ClientOption := fun c =>
  { c with IdentityURL := url, explicitURLs := "identity" :: c.explicitURLs }

/-- `WithComputeURL`. -/
def WithComputeURL (url : String) : ClientOption := fun c =>
  { c with ComputeURL := url, explicitURLs := "compute" :: c.explicitURLs }

/-- `WithBlockStorageURL`. -/
def WithBlockStorageURL (url : String) : ClientOption := fun c =>
  { c with BlockStorageURL := url, explicitURLs := "block-storage" :: c.explicitURLs }

/-- `WithImageServiceURL`. -/
def WithImageServiceURL (url : String) : ClientOption := fun c =>
  { c with ImageServiceURL := url, explicitURLs := "image" :: c.explicitURLs }

/-- `WithNetworkingURL`. -/
def WithNetworkingURL (url : String) : ClientOption := fun c =>
  { c with NetworkingURL := url, explicitURLs := "network" :: c.explicitURLs }

/-- `WithLBaaSURL`. -/
def WithLBaaSURL (url : String) : ClientOption := fun c =>
  { c with LBaaSURL := url, explicitURLs := "load-balancer" :: c.explicitURLs }

/-- `WithObjectStorageURL`. -/
def WithObjectStorageURL (url : String) : ClientOption := fun c =>
  { c with ObjectStorageURL := url, explicitURLs := "object-store" :: c.explicitURLs }

/-- `WithDNSServiceURL`. -/
def WithDNSServiceURL (url : String) : ClientOption := fun c =>
  { c with DNSServiceURL := url, explicitURLs := "dns" :: c.explicitURLs }

/-- The per-family `With<Service>URL` option. -/
def withServiceURL : ServiceFamily → String → ClientOption
  | .identity => WithIdentityURL
  | .compute => WithComputeURL
  | .blockStorage => WithBlockStorageURL
  | .image => WithImageServiceURL
  | .network => WithNetworkingURL
  | .loadBalancer => WithLBaaSURL
  | .objectStore => WithObjectStorageURL
  | .dns => WithDNSServiceURL

/-- `Endpoints`. -/
structure Endpoints where
  Identity : String := ""
  Compute : String := ""
  BlockStorage : String := ""
  ImageService : String := ""
  Networking : String := ""
  LBaaS : String := ""
  ObjectStore : String := ""
  DNS : String := ""
deriving DecidableEq, Repr

/-- `WithEndpoints`: non-empty fields are set and marked pinned. -/
def WithEndpoints (ep : Endpoints) : ClientOption := fun c =>
  let c := if ep.Identity ≠ "" then
    { c with IdentityURL := ep.Identity, explicitURLs := "identity" :: c.explicitURLs } else c
  let c := if ep.Compute ≠ "" then
    { c with ComputeURL := ep.Compute, explicitURLs := "compute" :: c.explicitURLs } else c
  let c := if ep.BlockStorage ≠ "" then
    { c with BlockStorageURL := ep.BlockStorage, explicitURLs := "block-storage" :: c.explicitURLs } else c
  let c := if ep.ImageService ≠ "" then
    { c with ImageServiceURL := ep.ImageService, explicitURLs := "image" :: c.explicitURLs } else c
  let c := if ep.Networking ≠ "" then
    { c with NetworkingURL := ep.Networking, explicitURLs := "network" :: c.explicitURLs } else c
  let c := if ep.LBaaS ≠ "" then
    { c with LBaaSURL := ep.LBaaS, explicitURLs := "load-balancer" :: c.explicitURLs } else c
  let c := if ep.ObjectStore ≠ "" then
    { c with ObjectStorageURL := ep.ObjectStore, explicitURLs := "object-store" :: c.explicitURLs } else c
  let c := if ep.DNS ≠ "" then
    { c with DNSServiceURL := ep.DNS, explicitURLs := "dns" :: c.explicitURLs } else c
  c

/-! ## Construction: region inference, version-path normalization, fallback -/

/-- The fixed version path of each family (the literals in
`fillURLsFromRegion` / `normalizeExplicitURLs` / `updateEndpointsFromCatalog`). -/
def versionPath : ServiceFamily → String
  | .identity => "/v3"
  | .compute => "/v2.1"
  | .blockStorage => "/v3"
  | .image => "/v2"
  | .network => "/v2.0"
  | .loadBalancer => "/v2.0"
  | .objectStore => "/v1"
  | .dns => "/v1"

/-- `ensureVersionPath`: append the version path unless it already occurs as
a substring. -/
def ensureVersionPath (rawURL versionPath : String) : String :=
  if containsStr rawURL versionPath then rawURL else rawURL ++ versionPath

/-- The host portion of a URL: the text between `"://"` and the next `/`, `?`
or `#` (the `url.Parse`/`Hostname()` fragment needed for region inference;
the ConoHa URLs carry no port or userinfo). -/
def hostOf (rawURL : String) : String :=
  match indexOfSub rawURL "://" with
  | none => ""
  | some i =>
    let rest := (rawURL.data.drop (i + 3))
    String.mk (rest.takeWhile (fun ch => ch ≠ '/' && ch ≠ '?' && ch ≠ '#'))

/-- `extractRegionFromConoHaURL`: from host `{service}.{region}.conoha.io`
return `{region}`, else `""`. -/
def extractRegionFromConoHaURL (rawURL : String) : String :=
  let parts := goSplit (hostOf rawURL) "."
  if parts.length ≥ 4 && parts.getD (parts.length - 2) "" = "conoha"
      && parts.getD (parts.length - 1) "" = "io" then
    parts.getD 1 ""
  else ""

/-- `normalizeExplicitURLs`: each pinned URL is right-trimmed of slashes and
given its version path. -/
def normalizeExplicitURLs (c : Client) : Client :=
  let c := if c.explicitURLs.contains "identity" then
    { c with IdentityURL := ensureVersionPath (trimRightSlashes c.IdentityURL) "/v3" } else c
  let c := if c.explicitURLs.contains "compute" then
    { c with ComputeURL := ensureVersionPath (trimRightSlashes c.ComputeURL) "/v2.1" } else c
  let c := if c.explicitURLs.contains "block-storage" then
    { c with BlockStorageURL := ensureVersionPath (trimRightSlashes c.BlockStorageURL) "/v3" } else c
  let c := if c.explicitURLs.contains "image" then
    { c with ImageServiceURL := ensureVersionPath (trimRightSlashes c.ImageServiceURL) "/v2" } else c
  let c := if c.explicitURLs.contains "network" then
    { c with NetworkingURL := ensureVersionPath (trimRightSlashes c.NetworkingURL) "/v2.0" } else c
  let c := if c.explicitURLs.contains "load-balancer" then
    { c with LBaaSURL := ensureVersionPath (trimRightSlashes c.LBaaSURL) "/v2.0" } else c
  let c := if c.explicitURLs.contains "object-store" then
    { c with ObjectStorageURL := ensureVersionPath (trimRightSlashes c.ObjectStorageURL) "/v1" } else c
  let c := if c.explicitURLs.contains "dns" then
    { c with DNSServiceURL := ensureVersionPath (trimRightSlashes c.DNSServiceURL) "/v1" } else c
  c

/-- `fillURLsFromRegion`: synthesize every still-empty URL from the region
pattern. -/
def fillURLsFromRegion (c : Client) : Client :=
  let r := c.Region
  let c := if c.IdentityURL = "" then
    { c with IdentityURL := "https://identity." ++ r ++ ".conoha.io/v3" } else c
  let c := if c.ComputeURL = "" then
    { c with ComputeURL := "https://compute." ++ r ++ ".conoha.io/v2.1" } else c
  let c := if c.BlockStorageURL = "" then
    { c with BlockStorageURL := "https://block-storage." ++ r ++ ".conoha.io/v3" } else c
  let c := if c.ImageServiceURL = "" then
    { c with ImageServiceURL := "https://image-service." ++ r ++ ".conoha.io/v2" } else c
  let c := if c.NetworkingURL = "" then
    { c with NetworkingURL := "https://networking." ++ r ++ ".conoha.io/v2.0" } else c
  let c := if c.LBaaSURL = "" then
    { c with LBaaSURL := "https://lbaas." ++ r ++ ".conoha.io/v2.0" } else c
  let c := if c.ObjectStorageURL = "" then
    { c with ObjectStorageURL := "https://object-storage." ++ r ++ ".conoha.io/v1" } else c
  let c := if c.DNSServiceURL = "" then
    { c with DNSServiceURL := "https://dns-service." ++ r ++ ".conoha.io/v1" } else c
  c

/-- `NewClient`: apply the options, infer the region from a pinned identity
URL when no region was given, normalize pinned URLs, then fill the rest from
the region pattern. -/
def NewClient (opts : List ClientOption) : Client :=
  let c := opts.foldl (fun c opt => opt c) newClientInit
  let c := if !c.explicitRegion && c.explicitURLs.contains "identity" then
      let r := extractRegionFromConoHaURL c.IdentityURL
      if r ≠ "" then { c with Region := r } else c
    else c
  let c := normalizeExplicitURLs c
  fillURLsFromRegion c

/-! ## Service catalog (`part_004` types) and discovery (`client.go`) -/

/-- `Endpoint`: one endpoint descriptor of a catalog entry. -/
structure Endpoint where
  ID : String := ""
  Interface : String := ""
  RegionID : String := ""
  URL : String := ""
  Region : String := ""
deriving DecidableEq, Repr

/-- `ServiceCatalog`: one catalog entry (`Type` is spelled `type` here). -/
structure ServiceCatalog where
  Endpoints : List Endpoint := []
  ID : String := ""
  type : String := ""
  Name : String := ""
deriving DecidableEq, Repr

/-- Whether an endpoint passes the filter of the discovery loop: it must be
`public`, and when a region is configured its region or region-id tag must
match. -/
def eligibleEndpoint (region : String) (ep : Endpoint) : Bool :=
  ep.Interface = "public" &&
    !(region ≠ "" && ep.Region ≠ region && ep.RegionID ≠ region)

/-- The inner loop of `updateEndpointsFromCatalog`: the trailing-slash-trimmed
URL of the first eligible endpoint, `""` when the loop assigns nothing. -/
def findPublicURL (region : String) : List Endpoint → String
  | [] => ""
  | ep :: rest =>
    if eligibleEndpoint region ep then trimRightSlashes ep.URL
    else findPublicURL region rest

/-- One guarded assignment of the discovery switch: set family `f`'s URL
unless `f` is pinned. -/
def applyCatalogURL (c : Client) (f : ServiceFamily) (u : String) : Client :=
  if c.explicitURLs.contains (serviceKey f) then c else c.setServiceURL f u

/-- The block-storage catalog URL surgery: ensure `/v3`, then truncate any
tenant segment after it (`u[:idx+3]` at the first `"/v3/"`). -/
def blockStorageCatalogURL (publicURL : String) : String :=
  match indexOfSub (ensureVersionPath publicURL "/v3") "/v3/" with
  | some idx => strTake (ensureVersionPath publicURL "/v3") (idx + 3)
  | none => ensureVersionPath publicURL "/v3"

/-- The object-store catalog URL surgery: strip from the first `"/AUTH_"`,
then ensure `/v1`. -/
def objectStoreCatalogURL (publicURL : String) : String :=
  match indexOfSub publicURL "/AUTH_" with
  | some idx => ensureVersionPath (strTake publicURL idx) "/v1"
  | none => ensureVersionPath publicURL "/v1"

/-- The switch of the discovery loop, dispatching on the entry's type string
(`publicURL` is the already-selected public endpoint URL). -/
def updateCatalogDispatch (c : Client) (ty publicURL : String) : Client :=
  if publicURL = "" then c
  else if ty = "identity" then
    applyCatalogURL c .identity (ensureVersionPath publicURL "/v3")
  else if ty = "compute" then
    applyCatalogURL c .compute (ensureVersionPath publicURL "/v2.1")
  else if ty = "block-storage" || ty = "volumev3" then
    applyCatalogURL c .blockStorage (blockStorageCatalogURL publicURL)
  else if ty = "image" then
    applyCatalogURL c .image (ensureVersionPath publicURL "/v2")
  else if ty = "network" then
    applyCatalogURL c .network (ensureVersionPath publicURL "/v2.0")
  else if ty = "load-balancer" then
    applyCatalogURL c .loadBalancer (ensureVersionPath publicURL "/v2.0")
  else if ty = "object-store" then
    applyCatalogURL c .objectStore (objectStoreCatalogURL publicURL)
  else if ty = "dns" then
    applyCatalogURL c .dns (ensureVersionPath publicURL "/v1")
  else c

/-- The body of the `for _, svc := range catalog` loop: pick a public URL and
dispatch on the service type. -/
def updateOneCatalogEntry (c : Client) (svc : ServiceCatalog) : Client :=
  updateCatalogDispatch c svc.type (findPublicURL c.Region svc.Endpoints)

/-- `updateEndpointsFromCatalog`. -/
def updateEndpointsFromCatalog (c : Client) (catalog : List ServiceCatalog) : Client :=
  catalog.foldl updateOneCatalogEntry c

/-! ## A JSON model (the `encoding/json` fragment the client exercises) -/

/-- JSON values.  Numbers are restricted to integers: every numeric field the
client decodes (`code`) is an `int`. -/
inductive Json where
  | null
  | bool (b : Bool)
  | num (n : Int)
  | str (s : String)
  | arr (elems : List Json)
  | obj (fields : List (String × Json))
deriving Repr

/-- JSON whitespace. -/
def isJsonWs (ch : Char) : Bool :=
  ch = ' ' || ch = '\t' || ch = '\n' || ch = '\r'

/-- Decode one `\uXXXX` escape. -/
def parseHex4 (cs : List Char) : Option (Nat × List Char) :=
  match cs with
  | a :: b :: c :: d :: rest =>
    let hexVal := fun (ch : Char) =>
      if '0' ≤ ch ∧ ch ≤ '9' then some (ch.toNat - 48)
      else if 'a' ≤ ch ∧ ch ≤ 'f' then some (ch.toNat - 87)
      else if 'A' ≤ ch ∧ ch ≤ 'F' then some (ch.toNat - 55)
      else none
    match hexVal a, hexVal b, hexVal c, hexVal d with
    | some x, some y, some z, some w => some (((x * 16 + y) * 16 + z) * 16 + w, rest)
    | _, _, _, _ => none
  | _ => none

/-- String-literal body: characters after the opening quote. -/
def parseJsonStringBody (fuel : Nat) (cs : List Char) (acc : List Char) :
    Option (String × List Char) :=
  match fuel, cs with
  | 0, _ => none
  | _, [] => none
  | fuel + 1, ch :: rest =>
    if ch = '"' then some (String.mk acc.reverse, rest)
    else if ch = '\\' then
      match rest with
      | [] => none
      | e :: rest2 =>
        if e = '"' then parseJsonStringBody fuel rest2 ('"' :: acc)
        else if e = '\\' then parseJsonStringBody fuel rest2 ('\\' :: acc)
        else if e = '/' then parseJsonStringBody fuel rest2 ('/' :: acc)
        else if e = 'b' then parseJsonStringBody fuel rest2 (Char.ofNat 8 :: acc)
        else if e = 'f' then parseJsonStringBody fuel rest2 (Char.ofNat 12 :: acc)
        else if e = 'n' then parseJsonStringBody fuel rest2 ('\n' :: acc)
        else if e = 'r' then parseJsonStringBody fuel rest2 ('\r' :: acc)
        else if e = 't' then parseJsonStringBody fuel rest2 ('\t' :: acc)
        else if e = 'u' then
          match parseHex4 rest2 with
          | some (n, rest3) =>
            if n.isValidChar then
              parseJsonStringBody fuel rest3 (Char.ofNat n :: acc)
            else none
          | none => none
        else none
    else if ch.toNat < 32 then none
    else parseJsonStringBody fuel rest (ch :: acc)

/-- Digits of a non-negative integer literal. -/
def parseDigits (cs : List Char) (acc : Nat) (seen : Bool) :
    Option (Nat × List Char) :=
  match cs with
  | c :: rest =>
    if '0' ≤ c ∧ c ≤ '9' then parseDigits rest (acc * 10 + (c.toNat - 48)) true
    else if seen then some (acc, cs) else none
  | [] => if seen then some (acc, cs) else none

mutual

/-- Parse one JSON value (leading whitespace already skipped). -/
def parseJsonValue (fuel : Nat) (cs : List Char) : Option (Json × List Char) :=
  match fuel with
  | 0 => none
  | fuel + 1 =>
    match cs with
    | [] => none
    | ch :: rest =>
      if ch = '{' then
        match parseJsonMembers fuel (rest.dropWhile isJsonWs) [] true with
        | some (fields, rest2) => some (.obj fields, rest2)
        | none => none
      else if ch = '[' then
        match parseJsonElems fuel (rest.dropWhile isJsonWs) [] true with
        | some (elems, rest2) => some (.arr elems, rest2)
        | none => none
      else if ch = '"' then
        match parseJsonStringBody fuel rest [] with
        | some (s, rest2) => some (.str s, rest2)
        | none => none
      else if ch = '-' then
        match parseDigits rest 0 false with
        | some (n, rest2) =>
          match rest2 with
          | c2 :: _ =>
            if c2 = '.' || c2 = 'e' || c2 = 'E' then none
            else some (.num (-(n : Int)), rest2)
          | [] => some (.num (-(n : Int)), rest2)
        | none => none
      else if '0' ≤ ch ∧ ch ≤ '9' then
        match parseDigits cs 0 false with
        | some (n, rest2) =>
          match rest2 with
          | c2 :: _ =>
            if c2 = '.' || c2 = 'e' || c2 = 'E' then none
            else some (.num (n : Int), rest2)
          | [] => some (.num (n : Int), rest2)
        | none => none
      else if ['t', 'r', 'u', 'e'].isPrefixOf cs then
        some (.bool true, cs.drop 4)
      else if ['f', 'a', 'l', 's', 'e'].isPrefixOf cs then
        some (.bool false, cs.drop 5)
      else if ['n', 'u', 'l', 'l'].isPrefixOf cs then
        some (.null, cs.drop 4)
      else none

/-- Parse array elements; `first` marks that `]` may close immediately. -/
def parseJsonElems (fuel : Nat) (cs : List Char) (acc : List Json)
    (first : Bool) : Option (List Json × List Char) :=
  match fuel with
  | 0 => none
  | fuel + 1 =>
    match cs with
    | ']' :: rest => if first then some (acc.reverse, rest) else none
    | _ =>
      match parseJsonValue fuel cs with
      | none => none
      | some (v, rest) =>
        match rest.dropWhile isJsonWs with
        | ',' :: rest2 => parseJsonElems fuel (rest2.dropWhile isJsonWs) (v :: acc) false
        | ']' :: rest2 => some ((v :: acc).reverse, rest2)
        | _ => none

/-- Parse object members; `first` marks that `}` may close immediately. -/
def parseJsonMembers (fuel : Nat) (cs : List Char) (acc : List (String × Json))
    (first : Bool) : Option (List (String × Json) × List Char) :=
  match fuel with
  | 0 => none
  | fuel + 1 =>
    match cs with
    | '}' :: rest => if first then some (acc.reverse, rest) else none
    | '"' :: rest =>
      match parseJsonStringBody fuel rest [] with
      | none => none
      | some (k, rest2) =>
        match rest2.dropWhile isJsonWs with
        | ':' :: rest3 =>
          match parseJsonValue fuel (rest3.dropWhile isJsonWs) with
          | none => none
          | some (v, rest4) =>
            match rest4.dropWhile isJsonWs with
            | ',' :: rest5 => parseJsonMembers fuel (rest5.dropWhile isJsonWs) ((k, v) :: acc) false
            | '}' :: rest5 => some (((k, v) :: acc).reverse, rest5)
            | _ => none
        | _ => none
    | _ => none

end

/-- `Json.parse`: a whole document, rejecting trailing garbage as
`json.Unmarshal` does. -/
def Json.parse (s : String) : Option Json :=
  match parseJsonValue (4 * s.length + 8) (s.data.dropWhile isJsonWs) with
  | some (v, rest) => if rest.dropWhile isJsonWs = [] then some v else none
  | none => none

/-! ## Error record (`newAPIError`) -/

/-- `APIError`. -/
structure APIError where
  StatusCode : Nat
  Status : String
  Body : String
  Message : String := ""
  Code : Int := 0
deriving DecidableEq, Repr

/-- Fold parsed object members into a string-keyed map: a later duplicate key
overwrites the earlier value (`encoding/json` map semantics). -/
def insertPair (acc : List (String × Json)) (p : String × Json) : List (String × Json) :=
  if acc.any (·.1 = p.1) then
    acc.map (fun q => if q.1 = p.1 then (q.1, p.2) else q)
  else acc ++ [p]

/-- The entries of the `map[string]json.RawMessage` a parsed object decodes
to.  This list fixes the map's *contents* only (written in document order of
first occurrence); Go's `range` over the map visits the entries in an
unspecified, deliberately randomized order, so any permutation of this list
is a possible iteration order (see `newAPIErrorPossible`). -/
def mapOfPairs (pairs : List (String × Json)) : List (String × Json) :=
  pairs.foldl insertPair []

/-- Bounds of Go's 64-bit `int`: `json.Unmarshal` of a number overflowing the
target integer type fails. -/
def fitsGoInt (n : Int) : Bool :=
  -9223372036854775808 ≤ n && n ≤ 9223372036854775807

/-- `json.Unmarshal` of one raw value into `struct { Message string; Code int }`:
keys are matched case-insensitively, `null` leaves a field unchanged, a
wrong-typed value — including a `code` number that overflows `int` — makes
the whole unmarshal fail (and the outer loop skips that key). -/
def decodeErrorInner (v : Json) : Option (String × Int) :=
  match v with
  | .null => some ("", 0)
  | .obj fields =>
    fields.foldlM (fun (st : String × Int) kv =>
      if eqFold kv.1 "message" then
        match kv.2 with
        | .str s => some (s, st.2)
        | .null => some st
        | _ => none
      else if eqFold kv.1 "code" then
        match kv.2 with
        | .num n => if fitsGoInt n then some (st.1, n) else none
        | .null => some st
        | _ => none
      else some st) ("", 0)
  | _ => none

/-- The `for _, raw := range parsed` loop over the entries in the order
given: the first entry whose inner object decodes with a non-empty message
wins. -/
def scanErrPairs : List (String × Json) → Option (String × Int)
  | [] => none
  | (_, v) :: rest =>
    match decodeErrorInner v with
    | some (msg, code) => if msg ≠ "" then some (msg, code) else scanErrPairs rest
    | none => scanErrPairs rest

/-- The error record built from an already-parsed map, iterated in the order
`entries` — one fixed outcome of the loop for one iteration order. -/
def newAPIErrorFromMap (entries : List (String × Json))
    (statusCode : Nat) (status body : String) : APIError :=
  match scanErrPairs entries with
  | some (msg, code) =>
    { StatusCode := statusCode, Status := status, Body := body
      Message := msg, Code := code }
  | none => { StatusCode := statusCode, Status := status, Body := body }

/-- `newAPIError`, with the parsed map iterated in document order — one of
the orders Go's randomized map `range` may produce.  `newAPIErrorPossible`
below characterizes every outcome the program may produce. -/
def newAPIError (statusCode : Nat) (status body : String) : APIError :=
  match Json.parse body with
  | some (.obj pairs) => newAPIErrorFromMap (mapOfPairs pairs) statusCode status body
  | _ => { StatusCode := statusCode, Status := status, Body := body }

/-- The set of error records `newAPIError` may produce for a response:
Go guarantees only that the loop visits the parsed map's entries in *some*
order, so every permutation of the map gives a possible outcome. -/
def newAPIErrorPossible (statusCode : Nat) (status body : String)
    (e : APIError) : Prop :=
  match Json.parse body with
  | some (.obj pairs) =>
    ∃ entries, List.Perm (mapOfPairs pairs) entries ∧
      e = newAPIErrorFromMap entries statusCode status body
  | _ => e = { StatusCode := statusCode, Status := status, Body := body }

/-! ## Requests and the response pipeline (`newRequest`, `do`, `doRaw`) -/

/-- An HTTP response as the pipeline observes it (status line, headers, and
the fully-read body). -/
structure HttpResponse where
  StatusCode : Nat
  Status : String
  Headers : List (String × String)
  Body : String
deriving DecidableEq, Repr

/-- `Header.Get`: first value of the key, `""` when absent. -/
def headerGet (hs : List (String × String)) (k : String) : String :=
  match hs.find? (·.1 = k) with
  | some p => p.2
  | none => ""

/-- `Header.Set`: replace every value of the key, or append. -/
def headerSet (hs : List (String × String)) (k v : String) : List (String × String) :=
  if hs.any (·.1 = k) then hs.map (fun p => if p.1 = k then (k, v) else p)
  else hs ++ [(k, v)]

/-- `Header.Del`. -/
def headerDel (hs : List (String × String)) (k : String) : List (String × String) :=
  hs.filter (fun p => p.1 ≠ k)

/-- An outgoing request as `newRequest` builds it. -/
structure Request where
  Method : String
  URL : String
  Headers : List (String × String)
  HasBody : Bool
deriving DecidableEq, Repr

/-- `newRequest`: `Accept`, optional `Content-Type`, and the bearer token as
`X-Auth-Token` only when one is set (the token is read under the read lock). -/
def newRequest (c : Client) (method url : String) (hasBody : Bool) : Request :=
  let hs := headerSet [] "Accept" "application/json"
  let hs := if hasBody then headerSet hs "Content-Type" "application/json" else hs
  let token := c.Token
  let hs := if token ≠ "" then headerSet hs "X-Auth-Token" token else hs
  { Method := method, URL := url, Headers := hs, HasBody := hasBody }

/-- The error results of `do`/`doRaw` once a response was received: either
the structured provider error or a client-side unmarshal failure. -/
inductive DoError where
  | api (e : APIError)
  | unmarshalFailure
deriving DecidableEq, Repr

deriving instance DecidableEq for Except

/-- `do`, parameterized by the typed decode of the destination value: a
status `≥ 400` becomes an `APIError`; otherwise a non-empty body is decoded
when a destination was supplied, an empty body is tolerated. -/
def doResponse {α : Type} (dec : Json → Option α) (resp : HttpResponse)
    (wantResult : Bool) : Except DoError (Option α) :=
  if resp.StatusCode ≥ 400 then
    .error (.api (newAPIError resp.StatusCode resp.Status resp.Body))
  else if wantResult && resp.Body ≠ "" then
    match Json.parse resp.Body with
    | none => .error .unmarshalFailure
    | some j =>
      match dec j with
      | none => .error .unmarshalFailure
      | some v => .ok (some v)
  else .ok none

/-- `doRaw`: the same status classification, returning the raw body bytes
alongside the optional error. -/
def doRaw (resp : HttpResponse) : String × Option APIError :=
  (resp.Body,
   if resp.StatusCode ≥ 400 then
     some (newAPIError resp.StatusCode resp.Status resp.Body)
   else none)

/-! ## Token response types and their JSON decoding (`part_004`) -/

/-- `DomainRef`. -/
structure DomainRef where
  ID : String := ""
  Name : String := ""
deriving DecidableEq, Repr

/-- `TokenProject`. -/
structure TokenProject where
  Domain : DomainRef := {}
  ID : String := ""
  Name : String := ""
deriving DecidableEq, Repr

/-- `Role`. -/
structure Role where
  ID : String := ""
  Name : String := ""
deriving DecidableEq, Repr

/-- `TokenUser`. -/
structure TokenUser where
  Domain : DomainRef := {}
  ID : String := ""
  Name : String := ""
  PasswordExpiresAt : Option String := none
deriving DecidableEq, Repr

/-- `Token`: the decoded token-issuance body. -/
structure Token where
  AuditIDs : List String := []
  Catalog : List ServiceCatalog := []
  ExpiresAt : String := ""
  IssuedAt : String := ""
  Methods : List String := []
  Project : TokenProject := {}
  Roles : List Role := []
  User : TokenUser := {}
deriving DecidableEq, Repr

/-- `tokenResponse`. -/
structure tokenResponse where
  token : Token := {}
deriving DecidableEq, Repr

/-- Decode a JSON value into a `string` field holding `cur`
(`null` is a no-op, a wrong type fails). -/
def decodeStringField (v : Json) (cur : String) : Option String :=
  match v with
  | .str s => some s
  | .null => some cur
  | _ => none

/-- Decode a JSON value into a slice field (`null` keeps the current slice,
an array decodes element-wise from the zero element). -/
def decodeListField {α : Type} (decElem : Json → Option α) (v : Json)
    (cur : List α) : Option (List α) :=
  match v with
  | .null => some cur
  | .arr xs => xs.mapM decElem
  | _ => none

/-- Decode a JSON array element into a `string`. -/
def decodeStrElem (v : Json) : Option String :=
  decodeStringField v ""

/-- Decode into an `Endpoint` starting from `cur`. -/
def decodeEndpointFrom (cur : Endpoint) (v : Json) : Option Endpoint :=
  match v with
  | .null => some cur
  | .obj fields =>
    fields.foldlM (fun (ep : Endpoint) kv =>
      if eqFold kv.1 "id" then (decodeStringField kv.2 ep.ID).map (fun s => { ep with ID := s })
      else if eqFold kv.1 "interface" then (decodeStringField kv.2 ep.Interface).map (fun s => { ep with Interface := s })
      else if eqFold kv.1 "region_id" then (decodeStringField kv.2 ep.RegionID).map (fun s => { ep with RegionID := s })
      else if eqFold kv.1 "url" then (decodeStringField kv.2 ep.URL).map (fun s => { ep with URL := s })
      else if eqFold kv.1 "region" then (decodeStringField kv.2 ep.Region).map (fun s => { ep with Region := s })
      else some ep) cur
  | _ => none

/-- Decode into a `ServiceCatalog` starting from `cur`. -/
def decodeServiceCatalogFrom (cur : ServiceCatalog) (v : Json) : Option ServiceCatalog :=
  match v with
  | .null => some cur
  | .obj fields =>
    fields.foldlM (fun (sc : ServiceCatalog) kv =>
      if eqFold kv.1 "endpoints" then
        (decodeListField (decodeEndpointFrom {}) kv.2 sc.Endpoints).map
          (fun l => { sc with Endpoints := l })
      else if eqFold kv.1 "id" then (decodeStringField kv.2 sc.ID).map (fun s => { sc with ID := s })
      else if eqFold kv.1 "type" then (decodeStringField kv.2 sc.type).map (fun s => { sc with type := s })
      else if eqFold kv.1 "name" then (decodeStringField kv.2 sc.Name).map (fun s => { sc with Name := s })
      else some sc) cur
  | _ => none

/-- Decode into a `DomainRef` starting from `cur`. -/
def decodeDomainRefFrom (cur : DomainRef) (v : Json) : Option DomainRef :=
  match v with
  | .null => some cur
  | .obj fields =>
    fields.foldlM (fun (d : DomainRef) kv =>
      if eqFold kv.1 "id" then (decodeStringField kv.2 d.ID).map (fun s => { d with ID := s })
      else if eqFold kv.1 "name" then (decodeStringField kv.2 d.Name).map (fun s => { d with Name := s })
      else some d) cur
  | _ => none

/-- Decode into a `TokenProject` starting from `cur`. -/
def decodeTokenProjectFrom (cur : TokenProject) (v : Json) : Option TokenProject :=
  match v with
  | .null => some cur
  | .obj fields =>
    fields.foldlM (fun (p : TokenProject) kv =>
      if eqFold kv.1 "domain" then (decodeDomainRefFrom p.Domain kv.2).map (fun d => { p with Domain := d })
      else if eqFold kv.1 "id" then (decodeStringField kv.2 p.ID).map (fun s => { p with ID := s })
      else if eqFold kv.1 "name" then (decodeStringField kv.2 p.Name).map (fun s => { p with Name := s })
      else some p) cur
  | _ => none

/-- Decode into a `Role` starting from `cur`. -/
def decodeRoleFrom (cur : Role) (v : Json) : Option Role :=
  match v with
  | .null => some cur
  | .obj fields =>
    fields.foldlM (fun (r : Role) kv =>
      if eqFold kv.1 "id" then (decodeStringField kv.2 r.ID).map (fun s => { r with ID := s })
      else if eqFold kv.1 "name" then (decodeStringField kv.2 r.Name).map (fun s => { r with Name := s })
      else some r) cur
  | _ => none

/-- Decode into a `TokenUser` starting from `cur` (`password_expires_at` is a
string pointer: JSON `null` stores `none`). -/
def decodeTokenUserFrom (cur : TokenUser) (v : Json) : Option TokenUser :=
  match v with
  | .null => some cur
  | .obj fields =>
    fields.foldlM (fun (u : TokenUser) kv =>
      if eqFold kv.1 "domain" then (decodeDomainRefFrom u.Domain kv.2).map (fun d => { u with Domain := d })
      else if eqFold kv.1 "id" then (decodeStringField kv.2 u.ID).map (fun s => { u with ID := s })
      else if eqFold kv.1 "name" then (decodeStringField kv.2 u.Name).map (fun s => { u with Name := s })
      else if eqFold kv.1 "password_expires_at" then
        match kv.2 with
        | .null => some { u with PasswordExpiresAt := none }
        | .str s => some { u with PasswordExpiresAt := some s }
        | _ => none
      else some u) cur
  | _ => none

/-- Decode into a `Token` starting from `cur`. -/
def decodeTokenFrom (cur : Token) (v : Json) : Option Token :=
  match v with
  | .null => some cur
  | .obj fields =>
    fields.foldlM (fun (t : Token) kv =>
      if eqFold kv.1 "audit_ids" then
        (decodeListField decodeStrElem kv.2 t.AuditIDs).map (fun l => { t with AuditIDs := l })
      else if eqFold kv.1 "catalog" then
        (decodeListField (decodeServiceCatalogFrom {}) kv.2 t.Catalog).map (fun l => { t with Catalog := l })
      else if eqFold kv.1 "expires_at" then (decodeStringField kv.2 t.ExpiresAt).map (fun s => { t with ExpiresAt := s })
      else if eqFold kv.1 "issued_at" then (decodeStringField kv.2 t.IssuedAt).map (fun s => { t with IssuedAt := s })
      else if eqFold kv.1 "methods" then
        (decodeListField decodeStrElem kv.2 t.Methods).map (fun l => { t with Methods := l })
      else if eqFold kv.1 "project" then (decodeTokenProjectFrom t.Project kv.2).map (fun p => { t with Project := p })
      else if eqFold kv.1 "roles" then
        (decodeListField (decodeRoleFrom {}) kv.2 t.Roles).map (fun l => { t with Roles := l })
      else if eqFold kv.1 "user" then (decodeTokenUserFrom t.User kv.2).map (fun u => { t with User := u })
      else some t) cur
  | _ => none

/-- Decode into a `tokenResponse`. -/
def decodeTokenResponse (v : Json) : Option tokenResponse :=
  match v with
  | .null => some {}
  | .obj fields =>
    fields.foldlM (fun (r : tokenResponse) kv =>
      if eqFold kv.1 "token" then (decodeTokenFrom r.token kv.2).map (fun t => { r with token := t })
      else some r) {}
  | _ => none

/-! ## The authenticator (`authenticate`) -/

/-- The observable events of one `authenticate` call on the shared client
state: the write-lock operations and the field writes, in program order. -/
inductive AuthEvent where
  | lockAcquire
  | writeToken
  | writeTenantID
  | writeURLs
  | lockRelease
deriving DecidableEq, Repr

/-- `authenticate`: the shared implementation behind `Authenticate`
(`tenantID` passed through) and `AuthenticateByName` (`tenantID = ""`).
The network exchange is abstracted by the received `resp`; the function
returns the updated client, the trace of lock/write events, and the result.
The auth request itself is built by `newRequest` with the `X-Auth-Token`
header deleted (`buildAuthRequest` below). -/
def authenticate (c : Client) (tenantID : String) (resp : HttpResponse) :
    Client × List AuthEvent × Except DoError Token :=
  match doResponse decodeTokenResponse resp true with
  | .error e => (c, [], .error e)
  | .ok r =>
    let result : tokenResponse := r.getD {}
    let c1 := { c with Token := headerGet resp.Headers "X-Subject-Token" }
    let step2 : Client × List AuthEvent :=
      if tenantID ≠ "" then ({ c1 with TenantID := tenantID }, [.writeTenantID])
      else if result.token.Project.ID ≠ "" then
        ({ c1 with TenantID := result.token.Project.ID }, [.writeTenantID])
      else (c1, [])
    let step3 : Client × List AuthEvent :=
      if result.token.Catalog.length > 0 then
        (updateEndpointsFromCatalog step2.1 result.token.Catalog, [.writeURLs])
      else (step2.1, [])
    (step3.1,
     [.lockAcquire, .writeToken] ++ step2.2 ++ step3.2 ++ [.lockRelease],
     .ok result.token)

/-- The request `authenticate` issues: built by `newRequest` against
`IdentityURL + "/auth/tokens"`, then stripped of `X-Auth-Token`. -/
def buildAuthRequest (c : Client) : Request :=
  let req := newRequest c "POST" (c.IdentityURL ++ "/auth/tokens") true
  { req with Headers := headerDel req.Headers "X-Auth-Token" }

/-! ## Bytes, escaping, SHA-1 and HMAC (object storage helpers) -/

/-- UTF-8 encoding of one character. -/
def utf8EncodeChar (ch : Char) : List Nat :=
  let n := ch.toNat
  if n < 128 then [n]
  else if n < 2048 then [192 ||| (n >>> 6), 128 ||| (n &&& 63)]
  else if n < 65536 then
    [224 ||| (n >>> 12), 128 ||| ((n >>> 6) &&& 63), 128 ||| (n &&& 63)]
  else
    [240 ||| (n >>> 18), 128 ||| ((n >>> 12) &&& 63),
     128 ||| ((n >>> 6) &&& 63), 128 ||| (n &&& 63)]

/-- The UTF-8 bytes of a string (Go's `[]byte(s)`). -/
def utf8Bytes (s : String) : List Nat :=
  s.data.flatMap utf8EncodeChar

/-- Lower-case hex digit. -/
def hexDigitLower (n : Nat) : Char :=
  if n < 10 then Char.ofNat (48 + n) else Char.ofNat (87 + n)

/-- Upper-case hex digit (Go's percent-escapes use upper case). -/
def hexDigitUpper (n : Nat) : Char :=
  if n < 10 then Char.ofNat (48 + n) else Char.ofNat (55 + n)

/-- `hex.EncodeToString` (lower-case). -/
def hexEncode (bs : List Nat) : String :=
  String.mk (bs.flatMap (fun b => [hexDigitLower (b / 16), hexDigitLower (b % 16)]))

/-- ASCII letter or digit, on a byte. -/
def isAlnumByte (b : Nat) : Bool :=
  (48 ≤ b && b ≤ 57) || (65 ≤ b && b ≤ 90) || (97 ≤ b && b ≤ 122)

/-- `url.PathEscape`'s escaping decision for one byte (mode
`encodePathSegment`): keep alphanumerics, `-_.~` and `$&+:=@`; escape `/`,
`;`, `,`, `?` and everything else. -/
def shouldEscapeSegment (b : Nat) : Bool :=
  !(isAlnumByte b || b = 45 || b = 95 || b = 46 || b = 126 ||
    b = 36 || b = 38 || b = 43 || b = 58 || b = 61 || b = 64)

/-- `url.PathEscape`. -/
def pathEscape (s : String) : String :=
  String.mk ((utf8Bytes s).flatMap (fun b =>
    if shouldEscapeSegment b then ['%', hexDigitUpper (b / 16), hexDigitUpper (b % 16)]
    else [Char.ofNat b]))

/-- `url.QueryEscape`: keep alphanumerics and `-_.~`, turn a space into `+`,
escape everything else. -/
def queryEscape (s : String) : String :=
  String.mk ((utf8Bytes s).flatMap (fun b =>
    if b = 32 then ['+']
    else if isAlnumByte b || b = 45 || b = 95 || b = 46 || b = 126 then [Char.ofNat b]
    else ['%', hexDigitUpper (b / 16), hexDigitUpper (b % 16)]))

/-- All 32-bit words live below `pow32`. -/
def pow32 : Nat := 4294967296

/-- Left-rotation of a 32-bit word. -/
def rotl (s x : Nat) : Nat :=
  ((x <<< s) % pow32) ||| (x >>> (32 - s))

/-- Big-endian bytes of a 32-bit word. -/
def beBytes4 (w : Nat) : List Nat :=
  [(w >>> 24) &&& 255, (w >>> 16) &&& 255, (w >>> 8) &&& 255, w &&& 255]

/-- Big-endian bytes of a 64-bit length. -/
def beBytes8 (n : Nat) : List Nat :=
  [(n >>> 56) &&& 255, (n >>> 48) &&& 255, (n >>> 40) &&& 255, (n >>> 32) &&& 255,
   (n >>> 24) &&& 255, (n >>> 16) &&& 255, (n >>> 8) &&& 255, n &&& 255]

/-- SHA-1 message padding to a multiple of 64 bytes. -/
def sha1Pad (msg : List Nat) : List Nat :=
  let l := msg.length
  let z := (64 - ((l + 9) % 64)) % 64
  msg ++ [128] ++ List.replicate z 0 ++ beBytes8 (8 * l)

/-- Split into 64-byte blocks (`fuel` bounds the recursion). -/
def chunks64 (fuel : Nat) (bs : List Nat) : List (List Nat) :=
  match fuel, bs with
  | 0, _ => []
  | _, [] => []
  | fuel + 1, bs => bs.take 64 :: chunks64 fuel (bs.drop 64)

/-- Big-endian 32-bit words of a block. -/
def bytesToWords : List Nat → List Nat
  | a :: b :: c :: d :: rest => (((a * 256 + b) * 256 + c) * 256 + d) :: bytesToWords rest
  | _ => []

/-- Extend 16 words to the 80-word schedule. -/
def extendWords (ws : List Nat) : Array Nat :=
  (List.range 64).foldl (fun a _ =>
    a.push (rotl 1 ((a.getD (a.size - 3) 0) ^^^ (a.getD (a.size - 8) 0) ^^^
      (a.getD (a.size - 14) 0) ^^^ (a.getD (a.size - 16) 0)))) ws.toArray

/-- The SHA-1 running state. -/
structure Sha1State where
  h0 : Nat
  h1 : Nat
  h2 : Nat
  h3 : Nat
  h4 : Nat
deriving DecidableEq, Repr

/-- Round function. -/
def sha1f (i b c d : Nat) : Nat :=
  if i < 20 then (b &&& c) ||| ((4294967295 ^^^ b) &&& d)
  else if i < 40 then b ^^^ c ^^^ d
  else if i < 60 then (b &&& c) ||| (b &&& d) ||| (c &&& d)
  else b ^^^ c ^^^ d

/-- Round constants. -/
def sha1k (i : Nat) : Nat :=
  if i < 20 then 1518500249
  else if i < 40 then 1859775393
  else if i < 60 then 2400959708
  else 3395469782

/-- Compress one 64-byte block. -/
def sha1Block (st : Sha1State) (block : List Nat) : Sha1State :=
  let w := extendWords (bytesToWords block)
  let final := (List.range 80).foldl
    (fun (s : Sha1State) i =>
      let temp := (rotl 5 s.h0 + sha1f i s.h1 s.h2 s.h3 + s.h4 + sha1k i + w.getD i 0) % pow32
      { h0 := temp, h1 := s.h0, h2 := rotl 30 s.h1, h3 := s.h2, h4 := s.h3 })
    { h0 := st.h0, h1 := st.h1, h2 := st.h2, h3 := st.h3, h4 := st.h4 }
  { h0 := (st.h0 + final.h0) % pow32, h1 := (st.h1 + final.h1) % pow32
    h2 := (st.h2 + final.h2) % pow32, h3 := (st.h3 + final.h3) % pow32
    h4 := (st.h4 + final.h4) % pow32 }

/-- `crypto/sha1`: the 20-byte digest. -/
def sha1 (msg : List Nat) : List Nat :=
  let padded := sha1Pad msg
  let st := (chunks64 padded.length padded).foldl sha1Block
    { h0 := 1732584193, h1 := 4023233417, h2 := 2562383102
      h3 := 271733878, h4 := 3285377520 }
  beBytes4 st.h0 ++ beBytes4 st.h1 ++ beBytes4 st.h2 ++ beBytes4 st.h3 ++ beBytes4 st.h4

/-- `crypto/hmac` with SHA-1 (block size 64). -/
def hmacSha1 (key msg : List Nat) : List Nat :=
  let key := if key.length > 64 then sha1 key else key
  let key := key ++ List.replicate (64 - key.length) 0
  let ipad := key.map (fun b => b ^^^ 54)
  let opad := key.map (fun b => b ^^^ 92)
  sha1 (opad ++ sha1 (ipad ++ msg))

/-! ## The URL fragment `GenerateTempURL` exercises -/

/-- The pieces of an absolute `scheme://host[/path][?query]` URL (the shape
of every object-storage URL this client builds; userinfo, port and fragment
do not occur there). -/
structure URLParts where
  scheme : String
  host : String
  path : String
  query : String
deriving DecidableEq, Repr

/-- Split a string at the first occurrence of `sep`. -/
def splitAtSub (s sep : String) : Option (String × String) :=
  match indexOfSub s sep with
  | some i => some (strTake s i, String.mk (s.data.drop (i + sep.length)))
  | none => none

/-- Parse an absolute URL of the above shape. -/
def parseURL (s : String) : Option URLParts :=
  match splitAtSub s "://" with
  | none => none
  | some (scheme, rest) =>
    let hpq := match splitAtSub rest "?" with
      | some (a, b) => (a, b)
      | none => (rest, "")
    match indexOfSub hpq.1 "/" with
    | some i =>
      some { scheme := scheme, host := strTake hpq.1 i
             path := String.mk (hpq.1.data.drop i), query := hpq.2 }
    | none => some { scheme := scheme, host := hpq.1, path := "", query := hpq.2 }

/-- `URL.String()` for this shape. -/
def urlToString (u : URLParts) : String :=
  u.scheme ++ "://" ++ u.host ++ u.path ++ (if u.query = "" then "" else "?" ++ u.query)

/-- `url.Values`: a map from key to values.  The base object-storage URLs
carry no query, so values are carried verbatim here. -/
abbrev QueryValues : Type := List (String × List String)

/-- `Values.Add` (used while parsing a raw query). -/
def queryAdd (vs : QueryValues) (k v : String) : QueryValues :=
  if vs.any (·.1 = k) then
    vs.map (fun q => if q.1 = k then (q.1, q.2 ++ [v]) else q)
  else vs ++ [(k, [v])]

/-- `Values.Set`: replace all values of the key. -/
def querySet (vs : QueryValues) (k v : String) : QueryValues :=
  if vs.any (·.1 = k) then
    vs.map (fun q => if q.1 = k then (q.1, [v]) else q)
  else vs ++ [(k, [v])]

/-- `url.ParseQuery` on `key=value&...` (values verbatim, see `QueryValues`). -/
def parseQuery (q : String) : QueryValues :=
  if q = "" then []
  else (goSplit q "&").foldl (fun vs part =>
    if part = "" then vs
    else match splitAtSub part "=" with
      | some (k, v) => queryAdd vs k v
      | none => queryAdd vs part "") []

/-- Insert an entry into a key-sorted list of entries. -/
def insertByKey (p : String × List String) : QueryValues → QueryValues
  | [] => [p]
  | q :: qs =>
    match compare p.1 q.1 with
    | .gt => q :: insertByKey p qs
    | _ => p :: q :: qs

/-- `Values.Encode`: keys in sorted order, every pair query-escaped. -/
def encodeQuery (vs : QueryValues) : String :=
  let sorted := vs.foldr insertByKey []
  String.intercalate "&" (sorted.flatMap (fun q =>
    q.2.map (fun v => queryEscape q.1 ++ "=" ++ queryEscape v)))

/-! ## Object storage: paths and the signed-URL generator -/

/-- `objectStoragePath`: the account URL plus per-segment-escaped parts, with
literal slashes inside a part preserved. -/
def objectStoragePath (c : Client) (parts : List String) : String :=
  parts.foldl
    (fun path p => path ++ "/" ++ replaceAll (pathEscape p) "%2F" "/")
    (c.ObjectStorageURL ++ "/AUTH_" ++ c.TenantID)

/-- The distinct failures of `GenerateTempURL`. -/
inductive TempURLError where
  | methodRequired
  | containerRequired
  | objectNameRequired
  | keyRequired
  | expiresNotPositive
  | urlParseFailure
deriving DecidableEq, Repr

/-- The Go error message of each named validation failure. -/
def validationMessage : TempURLError → Option String
  | .methodRequired => some "method is required"
  | .containerRequired => some "container is required"
  | .objectNameRequired => some "object name is required"
  | .keyRequired => some "temp url key is required"
  | .expiresNotPositive => some "expires must be greater than 0"
  | .urlParseFailure => none

/-- `GenerateTempURL`. -/
def GenerateTempURL (c : Client) (method container objectName key : String)
    (expires : Int) : Except TempURLError String :=
  let method := asciiToUpper (trimSpace method)
  if method = "" then .error .methodRequired
  else if container = "" then .error .containerRequired
  else if objectName = "" then .error .objectNameRequired
  else if key = "" then .error .keyRequired
  else if expires ≤ 0 then .error .expiresNotPositive
  else
    match parseURL (objectStoragePath c [container, objectName]) with
    | none => .error .urlParseFailure
    | some u =>
      let payload := method ++ "\n" ++ toString expires ++ "\n" ++ u.path
      let sig := hexEncode (hmacSha1 (utf8Bytes key) (utf8Bytes payload))
      let q := querySet (querySet (parseQuery u.query) "temp_url_sig" sig)
        "temp_url_expires" (toString expires)
      .ok (urlToString { u with query := encodeQuery q })

/-! ## Concrete test fixtures -/

/-- A concrete client whose compute URL is pinned. -/
def pinnedComputeClient : Client := { newClientInit with
  ComputeURL := "https://pinned.example.com/v2.1", explicitURLs := ["compute"] }

/-- A concrete catalog offering a different compute URL. -/
def otherComputeCatalog : List ServiceCatalog :=
  [{ type := "compute", Endpoints := [{ Interface := "public", Region := "c3j1", URL := "https://other.example.com/v2.1" }] }]

/-- A concrete 204 response. -/
def noContentResp : HttpResponse :=
  { StatusCode := 204, Status := "204 No Content", Headers := [], Body := "" }

/-- A concrete 404 response. -/
def notFoundResp : HttpResponse :=
  { StatusCode := 404, Status := "404 Not Found", Headers := [], Body := "x" }

/-- The 404 error body of the spec's example. -/
def itemNotFoundBody : String :=
  "\x7b\"itemNotFound\":\x7b\"message\":\"Server not found\",\"code\":404\x7d\x7d"

/-- The one entry `itemNotFoundBody` parses to. -/
def itemNotFoundEntry : String × Json :=
  ("itemNotFound", .obj [("message", .str "Server not found"), ("code", .num 404)])

/-- An error body with two top-level keys, both carrying non-empty messages. -/
def twoWinnerBody : String :=
  "\x7b\"first\":\x7b\"message\":\"x\",\"code\":1\x7d,\"second\":\x7b\"message\":\"y\",\"code\":2\x7d\x7d"

/-- The first entry of `twoWinnerBody`, in document order. -/
def firstWinnerEntry : String × Json :=
  ("first", .obj [("message", .str "x"), ("code", .num 1)])

/-- The second entry of `twoWinnerBody`, in document order. -/
def secondWinnerEntry : String × Json :=
  ("second", .obj [("message", .str "y"), ("code", .num 2)])

/-- A single-key 403 error body. -/
def forbiddenBody : String :=
  "\x7b\"forbidden\":\x7b\"message\":\"No\",\"code\":403\x7d\x7d"

/-- The one entry `forbiddenBody` parses to. -/
def forbiddenEntry : String × Json :=
  ("forbidden", .obj [("message", .str "No"), ("code", .num 403)])

/-- A concrete successful token-issuance response. -/
def authOkResp : HttpResponse :=
  { StatusCode := 201, Status := "201 Created"
    Headers := [("X-Subject-Token", "new-auth-token")]
    Body := "\x7b\"token\":\x7b\"project\":\x7b\"id\":\"p1\"\x7d\x7d\x7d" }

/-- A concrete 2xx token-issuance response carrying no `X-Subject-Token`. -/
def authNoHeaderResp : HttpResponse :=
  { StatusCode := 201, Status := "201 Created", Headers := []
    Body := "\x7b\"token\":\x7b\"project\":\x7b\"id\":\"p1\"\x7d\x7d\x7d" }

/-- A client still holding a previous token. -/
def oldTokenClient : Client := { newClientInit with Token := "old-token" }

/-- A catalog entry for compute pointing at `a.example.com`. -/
def computeEntryA : ServiceCatalog :=
  { type := "compute", Endpoints := [{ Interface := "public", Region := "c3j1", URL := "https://a.example.com/v2.1" }] }

/-- A catalog entry for compute pointing at `b.example.com`. -/
def computeEntryB : ServiceCatalog :=
  { type := "compute", Endpoints := [{ Interface := "public", Region := "c3j1", URL := "https://b.example.com/v2.1" }] }

/-- A client with region `c3j2` and no pins. -/
def regionC3j2Client : Client := { newClientInit with Region := "c3j2" }

/-- An entry whose only public endpoint carries region `c3j1`. -/
def wrongRegionEntry : ServiceCatalog :=
  { type := "compute", Endpoints := [{ Interface := "public", Region := "c3j1", RegionID := "c3j1", URL := "https://wrong.example.com/v2.1" }] }

/-- A client with the region unset. -/
def noRegionClient : Client := { newClientInit with Region := "" }

/-- An internal endpoint followed by a public one. -/
def mixedEntry : ServiceCatalog :=
  { type := "compute", Endpoints := [{ Interface := "internal", Region := "c3j1", URL := "https://int.example.com/v2.1" }, { Interface := "public", Region := "c3j1", URL := "https://pub.example.com/v2.1/" }] }

/-- A fixed client configuration for the signed-URL claims. -/
def tempURLClient : Client := { newClientInit with
  ObjectStorageURL := "https://object-storage.c3j1.conoha.io/v1", TenantID := "tenant123" }

/-- The signed URL for `("GET", "c", "o.txt", "key", 1700000000)`. -/
def tempURLBase : String :=
  "https://object-storage.c3j1.conoha.io/v1/AUTH_tenant123/c/o.txt?temp_url_expires=1700000000&temp_url_sig=9d286571b8e51f23f06c1b6d16384d37e557397b"


/-! ## Shared lemmas -/

theorem setServiceURL_explicitURLs (c : Client) (f : ServiceFamily) (u : String) :
    (c.setServiceURL f u).explicitURLs = c.explicitURLs := by
  cases f <;> rfl

theorem setServiceURL_Token (c : Client) (f : ServiceFamily) (u : String) :
    (c.setServiceURL f u).Token = c.Token := by
  cases f <;> rfl

theorem serviceURL_setServiceURL_ne (c : Client) {f g : ServiceFamily}
    (h : f ≠ g) (u : String) : (c.setServiceURL g u).serviceURL f = c.serviceURL f := by
  cases f <;> cases g <;> first
    | exact absurd rfl h
    | rfl

theorem serviceKey_inj {f g : ServiceFamily} (h : serviceKey f = serviceKey g) :
    f = g := by
  cases f <;> cases g <;> revert h <;> decide

theorem applyCatalogURL_explicitURLs (c : Client) (f : ServiceFamily) (u : String) :
    (applyCatalogURL c f u).explicitURLs = c.explicitURLs := by
  unfold applyCatalogURL
  split
  · rfl
  · exact setServiceURL_explicitURLs c f u

theorem applyCatalogURL_Token (c : Client) (f : ServiceFamily) (u : String) :
    (applyCatalogURL c f u).Token = c.Token := by
  unfold applyCatalogURL
  split
  · rfl
  · exact setServiceURL_Token c f u

theorem applyCatalogURL_pinned_preserve {c : Client} {f : ServiceFamily}
    (h : c.pinned f = true) (g : ServiceFamily) (u : String) :
    (applyCatalogURL c g u).serviceURL f = c.serviceURL f := by
  unfold applyCatalogURL
  split
  · rfl
  · rename_i hg
    have hne : f ≠ g := by
      intro he
      subst he
      exact hg h
    exact serviceURL_setServiceURL_ne c hne u

theorem updateOne_explicitURLs (c : Client) (svc : ServiceCatalog) :
    (updateOneCatalogEntry c svc).explicitURLs = c.explicitURLs := by
  unfold updateOneCatalogEntry updateCatalogDispatch
  repeat' split
  all_goals first
    | rfl
    | apply applyCatalogURL_explicitURLs

theorem updateOne_Token (c : Client) (svc : ServiceCatalog) :
    (updateOneCatalogEntry c svc).Token = c.Token := by
  unfold updateOneCatalogEntry updateCatalogDispatch
  repeat' split
  all_goals first
    | rfl
    | apply applyCatalogURL_Token

theorem updateOne_pinned_preserve {c : Client} {f : ServiceFamily}
    (h : c.pinned f = true) (svc : ServiceCatalog) :
    (updateOneCatalogEntry c svc).serviceURL f = c.serviceURL f := by
  unfold updateOneCatalogEntry updateCatalogDispatch
  repeat' split
  all_goals first
    | rfl
    | exact applyCatalogURL_pinned_preserve h _ _

theorem updateCatalog_Token (catalog : List ServiceCatalog) (c : Client) :
    (updateEndpointsFromCatalog c catalog).Token = c.Token := by
  induction catalog generalizing c with
  | nil => rfl
  | cons svc rest ih =>
    show (updateEndpointsFromCatalog (updateOneCatalogEntry c svc) rest).Token = _
    rw [ih, updateOne_Token]

theorem newAPIError_StatusCode (sc : Nat) (st b : String) :
    (newAPIError sc st b).StatusCode = sc ∧ (newAPIError sc st b).Status = st ∧
    (newAPIError sc st b).Body = b := by
  unfold newAPIError newAPIErrorFromMap
  repeat' split
  all_goals exact ⟨rfl, rfl, rfl⟩

/-! ## The claims -/

/-- C1: for every service family whose URL was explicitly pinned, applying
catalog discovery with any service catalog whatsoever leaves that family's
URL field unchanged (only unpinned families can be rewritten by
`updateEndpointsFromCatalog`). -/
theorem pinned_urls_survive_catalog_updates
    (c : Client) (catalog : List ServiceCatalog) (f : ServiceFamily)
    (h : c.pinned f = true) :
    (updateEndpointsFromCatalog c catalog).serviceURL f = c.serviceURL f := by
  induction catalog generalizing c with
  | nil => rfl
  | cons svc rest ih =>
    show (updateEndpointsFromCatalog (updateOneCatalogEntry c svc) rest).serviceURL f = _
    have hp : (updateOneCatalogEntry c svc).pinned f = true := by
      unfold Client.pinned
      rw [updateOne_explicitURLs]
      exact h
    rw [ih _ hp, updateOne_pinned_preserve h]

/-- Witness for C1 at a concrete pinned client and a catalog that offers a
different compute URL. -/
theorem pinned_urls_survive_catalog_updates_witness :
    (updateEndpointsFromCatalog pinnedComputeClient otherComputeCatalog).serviceURL .compute
      = pinnedComputeClient.serviceURL .compute :=
  pinned_urls_survive_catalog_updates _ _ .compute (by decide)

/-- C2: in both response-handling variants (`do` and `doRaw`), a status code
in 200–399 never produces an `APIError`, and a status code in 400–599 always
produces one whose `StatusCode` equals the response's status code. -/
theorem status_code_error_classification (α : Type) (dec : Json → Option α)
    (resp : HttpResponse) (want : Bool) :
    (200 ≤ resp.StatusCode ∧ resp.StatusCode ≤ 399 →
      (∀ e, doResponse dec resp want ≠ .error (.api e)) ∧ (doRaw resp).2 = none) ∧
    (400 ≤ resp.StatusCode ∧ resp.StatusCode ≤ 599 →
      (∃ e, doResponse dec resp want = .error (.api e) ∧ e.StatusCode = resp.StatusCode) ∧
      (∃ e, (doRaw resp).2 = some e ∧ e.StatusCode = resp.StatusCode)) := by
  constructor
  · rintro ⟨-, h3⟩
    have h4 : ¬ (400 ≤ resp.StatusCode) := by omega
    constructor
    · intro e
      unfold doResponse
      rw [if_neg h4]
      repeat' split
      all_goals simp
    · simp [doRaw, h4]
  · rintro ⟨h4, -⟩
    refine ⟨⟨newAPIError resp.StatusCode resp.Status resp.Body, ?_, ?_⟩,
      ⟨newAPIError resp.StatusCode resp.Status resp.Body, ?_, ?_⟩⟩
    · simp [doResponse, h4]
    · exact (newAPIError_StatusCode _ _ _).1
    · simp [doRaw, h4]
    · exact (newAPIError_StatusCode _ _ _).1

/-- Witness for C2 at a 204 and a 404 response. -/
theorem status_code_error_classification_witness :
    ((∀ e, doResponse (fun j => some j) noContentResp true ≠ .error (.api e)) ∧
      (doRaw noContentResp).2 = none) ∧
    ((∃ e, doResponse (fun j => some j) notFoundResp true = .error (.api e) ∧
        e.StatusCode = notFoundResp.StatusCode) ∧
      (∃ e, (doRaw notFoundResp).2 = some e ∧ e.StatusCode = notFoundResp.StatusCode)) :=
  ⟨(status_code_error_classification Json (fun j => some j) noContentResp true).1
      (by constructor <;> decide),
   (status_code_error_classification Json (fun j => some j) notFoundResp true).2
      (by constructor <;> decide)⟩

/-- C4: with region `c3j2`, no pins and no catalog, every family's URL has
the pattern `https://{service-subdomain}.c3j2.conoha.io/{version-path}` with
the fixed version paths, and with no region supplied the default literal
`c3j1` is used. -/
theorem region_pattern_fallback :
    ((NewClient [WithRegion "c3j2"]).IdentityURL = "https://identity.c3j2.conoha.io/v3" ∧
     (NewClient [WithRegion "c3j2"]).ComputeURL = "https://compute.c3j2.conoha.io/v2.1" ∧
     (NewClient [WithRegion "c3j2"]).BlockStorageURL = "https://block-storage.c3j2.conoha.io/v3" ∧
     (NewClient [WithRegion "c3j2"]).ImageServiceURL = "https://image-service.c3j2.conoha.io/v2" ∧
     (NewClient [WithRegion "c3j2"]).NetworkingURL = "https://networking.c3j2.conoha.io/v2.0" ∧
     (NewClient [WithRegion "c3j2"]).LBaaSURL = "https://lbaas.c3j2.conoha.io/v2.0" ∧
     (NewClient [WithRegion "c3j2"]).ObjectStorageURL = "https://object-storage.c3j2.conoha.io/v1" ∧
     (NewClient [WithRegion "c3j2"]).DNSServiceURL = "https://dns-service.c3j2.conoha.io/v1") ∧
    (DefaultRegion = "c3j1" ∧
     (NewClient []).Region = "c3j1" ∧
     (NewClient []).IdentityURL = "https://identity.c3j1.conoha.io/v3" ∧
     (NewClient []).ComputeURL = "https://compute.c3j1.conoha.io/v2.1" ∧
     (NewClient []).BlockStorageURL = "https://block-storage.c3j1.conoha.io/v3" ∧
     (NewClient []).ImageServiceURL = "https://image-service.c3j1.conoha.io/v2" ∧
     (NewClient []).NetworkingURL = "https://networking.c3j1.conoha.io/v2.0" ∧
     (NewClient []).LBaaSURL = "https://lbaas.c3j1.conoha.io/v2.0" ∧
     (NewClient []).ObjectStorageURL = "https://object-storage.c3j1.conoha.io/v1" ∧
     (NewClient []).DNSServiceURL = "https://dns-service.c3j1.conoha.io/v1") := by
  decide

theorem scanErrPairs_first {pre : List (String × Json)} {k : String} {v : Json}
    {post : List (String × Json)} {m : String} {cd : Int}
    (hpre : ∀ p ∈ pre, ∀ pr : String × Int, decodeErrorInner p.2 = some pr → pr.1 = "")
    (hv : decodeErrorInner v = some (m, cd)) (hm : m ≠ "") :
    scanErrPairs (pre ++ (k, v) :: post) = some (m, cd) := by
  induction pre with
  | nil =>
    simp only [List.nil_append, scanErrPairs, hv]
    rw [if_pos hm]
  | cons p pre ih =>
    obtain ⟨pk, pv⟩ := p
    have hp := hpre (pk, pv) (by simp)
    have hrest : ∀ q ∈ pre, ∀ pr : String × Int, decodeErrorInner q.2 = some pr → pr.1 = "" :=
      fun q hq => hpre q (by simp [hq])
    cases hdec : decodeErrorInner pv with
    | none =>
      simp only [List.cons_append, scanErrPairs, hdec]
      exact ih hrest
    | some pr =>
      have hempty : pr.1 = "" := hp pr hdec
      simp only [List.cons_append, scanErrPairs, hdec]
      obtain ⟨prm, prc⟩ := pr
      simp only at hempty
      subst hempty
      rw [if_neg (by simp)]
      exact ih hrest

theorem newAPIErrorPossible_of_parse {pairs entries : List (String × Json)}
    (sc : Nat) (st body : String)
    (hp : Json.parse body = some (.obj pairs))
    (hperm : List.Perm (mapOfPairs pairs) entries) :
    newAPIErrorPossible sc st body (newAPIErrorFromMap entries sc st body) := by
  unfold newAPIErrorPossible
  simp only [hp]
  exact ⟨entries, hperm, rfl⟩

/-- Counterexample to C3 as stated: `for _, raw := range parsed` visits the
parsed map in an unspecified, randomized order, so with two top-level keys
both carrying non-empty messages the program does not guarantee that the
first key in the document wins.  For `twoWinnerBody` (keys `first`, then
`second`, in document order), iterating in the swapped order — a possible
map range order, being a permutation of the map — populates `Message` from
the *second* key. -/
theorem error_envelope_first_key_counterexample :
    Json.parse twoWinnerBody = some (.obj [firstWinnerEntry, secondWinnerEntry]) ∧
    mapOfPairs [firstWinnerEntry, secondWinnerEntry] = [firstWinnerEntry, secondWinnerEntry] ∧
    (newAPIError 500 "500 Internal Server Error" twoWinnerBody).Message = "x" ∧
    newAPIErrorPossible 500 "500 Internal Server Error" twoWinnerBody
      (newAPIErrorFromMap [secondWinnerEntry, firstWinnerEntry]
        500 "500 Internal Server Error" twoWinnerBody) ∧
    (newAPIErrorFromMap [secondWinnerEntry, firstWinnerEntry]
      500 "500 Internal Server Error" twoWinnerBody).Message = "y" ∧
    ("y" : String) ≠ "x" :=
  ⟨rfl, rfl, by decide,
   newAPIErrorPossible_of_parse 500 "500 Internal Server Error" twoWinnerBody rfl
     (List.Perm.swap secondWinnerEntry firstWinnerEntry []),
   by decide, by decide⟩

/-- C3 (amended): the example 404 envelope is a single-key map, so every
possible iteration order yields `Message == "Server not found"` and
`Code == 404`; a body that does not parse as a JSON object yields an empty
`Message` and the raw body verbatim under every possible outcome; in
general the parsed fields come from the first key — in the map iteration
order actually taken, which Go leaves unspecified — whose inner object
unmarshals with a non-empty message (a `code` overflowing Go's `int` makes
that key's unmarshal fail, skipping the key).  Which key wins may depend on
the order when several keys qualify; see the counterexample. -/
theorem error_envelope_parsing :
    (∀ e, newAPIErrorPossible 404 "404 Not Found" itemNotFoundBody e →
      e = { StatusCode := 404, Status := "404 Not Found", Body := itemNotFoundBody
            Message := "Server not found", Code := 404 }) ∧
    (newAPIError 404 "404 Not Found" itemNotFoundBody =
      { StatusCode := 404, Status := "404 Not Found", Body := itemNotFoundBody
        Message := "Server not found", Code := 404 }) ∧
    (∀ e, newAPIErrorPossible 500 "500 Internal Server Error" "Internal Server Error" e →
      e = { StatusCode := 500, Status := "500 Internal Server Error"
            Body := "Internal Server Error", Message := "", Code := 0 }) ∧
    (∀ (sc : Nat) (st body : String) (pairs entries pre post : List (String × Json))
        (k : String) (v : Json) (m : String) (cd : Int),
      Json.parse body = some (.obj pairs) →
      List.Perm (mapOfPairs pairs) entries →
      entries = pre ++ (k, v) :: post →
      (∀ p ∈ pre, ∀ pr : String × Int, decodeErrorInner p.2 = some pr → pr.1 = "") →
      decodeErrorInner v = some (m, cd) → m ≠ "" →
      (newAPIErrorFromMap entries sc st body).Message = m ∧
      (newAPIErrorFromMap entries sc st body).Code = cd) := by
  refine ⟨?_, by decide, ?_, ?_⟩
  · intro e he
    have he' : ∃ entries, List.Perm (mapOfPairs [itemNotFoundEntry]) entries ∧
        e = newAPIErrorFromMap entries 404 "404 Not Found" itemNotFoundBody := he
    obtain ⟨entries, hperm, rfl⟩ := he'
    have hm : mapOfPairs [itemNotFoundEntry] = [itemNotFoundEntry] := rfl
    rw [hm] at hperm
    have heq : entries = [itemNotFoundEntry] := by
      have h2 := List.singleton_perm.mp hperm
      first
        | exact h2
        | exact h2.symm
    rw [heq]
    decide
  · intro e he
    exact he
  · intro sc st body pairs entries pre post k v m cd hparse hperm hentries hpre hv hm
    unfold newAPIErrorFromMap
    rw [hentries, scanErrPairs_first hpre hv hm]
    exact ⟨rfl, rfl⟩

/-- Witness for C3's general clause at a one-key envelope. -/
theorem error_envelope_parsing_witness :
    (newAPIErrorFromMap [forbiddenEntry] 403 "403 Forbidden" forbiddenBody).Message = "No" ∧
    (newAPIErrorFromMap [forbiddenEntry] 403 "403 Forbidden" forbiddenBody).Code = 403 :=
  error_envelope_parsing.2.2.2 403 "403 Forbidden" forbiddenBody
    [forbiddenEntry] [forbiddenEntry] [] []
    "forbidden" (.obj [("message", .str "No"), ("code", .num 403)])
    "No" 403
    (by rfl) (List.Perm.refl _) (by rfl) (by simp) (by rfl) (by decide)

theorem doResponse_ge400 {α : Type} (dec : Json → Option α) (resp : HttpResponse)
    (w : Bool) (h : 400 ≤ resp.StatusCode) :
    doResponse dec resp w =
      .error (.api (newAPIError resp.StatusCode resp.Status resp.Body)) := by
  unfold doResponse
  rw [if_pos h]

/-- C5: an authentication attempt that receives a status `≥ 400` returns the
structured `APIError` and leaves the client (token, tenant ID and all eight
URL fields) untouched, producing no lock or write events; on success every
write event sits inside the single `lockAcquire … lockRelease` critical
section. -/
theorem auth_failure_no_mutation (c : Client) (tid : String) (resp : HttpResponse) :
    (400 ≤ resp.StatusCode →
      authenticate c tid resp =
        (c, [], .error (.api (newAPIError resp.StatusCode resp.Status resp.Body)))) ∧
    (∀ t, (authenticate c tid resp).2.2 = .ok t →
      ∃ ws, (authenticate c tid resp).2.1 = .lockAcquire :: ws ++ [.lockRelease] ∧
        ∀ e ∈ ws, e = .writeToken ∨ e = .writeTenantID ∨ e = .writeURLs) := by
  constructor
  · intro h
    unfold authenticate
    rw [doResponse_ge400 decodeTokenResponse resp true h]
  · intro t hok
    cases hdo : doResponse decodeTokenResponse resp true with
    | error e =>
      rw [show authenticate c tid resp = (c, [], .error e) by
        unfold authenticate; rw [hdo]] at hok
      exact absurd hok (by simp)
    | ok r =>
      simp only [authenticate, hdo] at hok ⊢
      refine ⟨.writeToken ::
        (if tid ≠ "" then [AuthEvent.writeTenantID]
         else if (r.getD {}).token.Project.ID ≠ "" then [AuthEvent.writeTenantID] else []) ++
        (if (r.getD {}).token.Catalog.length > 0 then [AuthEvent.writeURLs] else []), ?_, ?_⟩
      · repeat' split
        all_goals simp
      · intro e he
        repeat' split at he
        all_goals try simp_all
        all_goals tauto

/-- Witness for C5 at a concrete 404 response and a concrete success. -/
theorem auth_failure_no_mutation_witness :
    (authenticate newClientInit "tenant" notFoundResp =
      (newClientInit, [], .error (.api (newAPIError 404 "404 Not Found" "x")))) ∧
    (∃ ws, (authenticate newClientInit "tenant" authOkResp).2.1 =
        .lockAcquire :: ws ++ [.lockRelease] ∧
      ∀ e ∈ ws, e = .writeToken ∨ e = .writeTenantID ∨ e = .writeURLs) :=
  ⟨(auth_failure_no_mutation newClientInit "tenant" notFoundResp).1 (by decide),
   (auth_failure_no_mutation newClientInit "tenant" authOkResp).2
     { Project := { ID := "p1" } } (by decide)⟩

theorem newRequest_no_token (c : Client) (h : c.Token = "") (m u : String) (b : Bool) :
    (newRequest c m u b).Headers.find? (fun p => p.1 = "X-Auth-Token") = none := by
  cases b <;> simp [newRequest, h, headerSet, headerGet]

/-- C10: on every successful authentication the stored token becomes exactly
the `X-Subject-Token` header value; with no such header the stored token is
the empty string (erasing any previous token), and requests built by
`newRequest` afterwards carry no `X-Auth-Token` header at all. -/
theorem token_set_from_subject_header (c : Client) (tid : String) (resp : HttpResponse)
    (t : Token) (hok : (authenticate c tid resp).2.2 = .ok t) :
    (authenticate c tid resp).1.Token = headerGet resp.Headers "X-Subject-Token" ∧
    (headerGet resp.Headers "X-Subject-Token" = "" →
      (authenticate c tid resp).1.Token = "" ∧
      ∀ m u b, (newRequest (authenticate c tid resp).1 m u b).Headers.find?
        (fun p => p.1 = "X-Auth-Token") = none) := by
  have htok : (authenticate c tid resp).1.Token = headerGet resp.Headers "X-Subject-Token" := by
    cases hdo : doResponse decodeTokenResponse resp true with
    | error e =>
      rw [show authenticate c tid resp = (c, [], .error e) by
        unfold authenticate; rw [hdo]] at hok
      exact absurd hok (by simp)
    | ok r =>
      simp only [authenticate, hdo]
      repeat' split
      all_goals simp [updateCatalog_Token]
  exact ⟨htok, fun hempty =>
    ⟨htok.trans hempty, fun m u b => newRequest_no_token _ (htok.trans hempty) m u b⟩⟩

/-- Witness for C10: a 201 response without the header erases the old token
and the next `newRequest` carries no auth header. -/
theorem token_set_from_subject_header_witness :
    (authenticate oldTokenClient "" authNoHeaderResp).1.Token = "" ∧
    (newRequest (authenticate oldTokenClient "" authNoHeaderResp).1
      "GET" "https://compute.c3j1.conoha.io/v2.1/servers" false).Headers.find?
        (fun p => p.1 = "X-Auth-Token") = none :=
  ((token_set_from_subject_header oldTokenClient "" authNoHeaderResp
      { Project := { ID := "p1" } } (by decide)).2 (by decide)).imp
    id (fun h => h "GET" "https://compute.c3j1.conoha.io/v2.1/servers" false)

theorem strData_append (s t : String) : (s ++ t).data = s.data ++ t.data := rfl

theorem ensureVersionPath_ne_empty {vp : String} (hvp : vp.data ≠ []) (s : String) :
    ensureVersionPath s vp ≠ "" := by
  unfold ensureVersionPath
  split
  · rename_i hc
    intro hs
    rw [hs] at hc
    simp [containsStr, indexOfSub, indexOfSubAux, show ("" : String).data = [] from rfl,
      List.isEmpty_iff, hvp] at hc
  · intro h
    have h2 : (s ++ vp).data = [] := by rw [h]
    rw [strData_append] at h2
    exact hvp (List.append_eq_nil.mp h2).2

theorem fill_preserves_nonempty (c : Client) (f : ServiceFamily)
    (h : c.serviceURL f ≠ "") :
    (fillURLsFromRegion c).serviceURL f = c.serviceURL f := by
  cases f <;>
    (simp only [Client.serviceURL] at h ⊢
     simp only [fillURLsFromRegion, apply_ite (Client.IdentityURL),
       apply_ite (Client.ComputeURL), apply_ite (Client.BlockStorageURL),
       apply_ite (Client.ImageServiceURL), apply_ite (Client.NetworkingURL),
       apply_ite (Client.LBaaSURL), apply_ite (Client.ObjectStorageURL),
       apply_ite (Client.DNSServiceURL), apply_ite (Client.Region), ite_self]
     simp [h])

/-- Counterexample to C7 as stated: a pinned compute URL carrying a trailing
slash already contains the version path, yet construction returns neither the
URL byte-for-byte nor the URL with the version path appended — the trailing
slash is stripped first. -/
theorem pinned_url_byte_preservation_counterexample :
    containsStr "https://compute.c3j1.conoha.io/v2.1/" "/v2.1" = true ∧
    (NewClient [WithComputeURL "https://compute.c3j1.conoha.io/v2.1/"]).ComputeURL =
      "https://compute.c3j1.conoha.io/v2.1" ∧
    (NewClient [WithComputeURL "https://compute.c3j1.conoha.io/v2.1/"]).ComputeURL ≠
      "https://compute.c3j1.conoha.io/v2.1/" ∧
    (NewClient [WithComputeURL "https://compute.c3j1.conoha.io/v2.1/"]).ComputeURL ≠
      "https://compute.c3j1.conoha.io/v2.1/" ++ "/v2.1" := by
  refine ⟨by decide, by decide, by decide, by decide⟩

/-- C7 (amended): for every explicitly pinned URL `u` of family `f`,
construction resolves the family's URL to `u` with trailing slashes stripped
when that already contains the family's version path as a substring, and to
the stripped `u` with the version path appended otherwise; the append happens
once, at construction. -/
theorem pinned_url_normalization (f : ServiceFamily) (u : String) :
    (NewClient [withServiceURL f u]).serviceURL f =
      ensureVersionPath (trimRightSlashes u) (versionPath f) := by
  cases f <;>
    (simp only [NewClient, withServiceURL, WithIdentityURL, WithComputeURL,
       WithBlockStorageURL, WithImageServiceURL, WithNetworkingURL, WithLBaaSURL,
       WithObjectStorageURL, WithDNSServiceURL, List.foldl, newClientInit]
     rw [fill_preserves_nonempty]
     · simp +decide [normalizeExplicitURLs, Client.serviceURL, versionPath,
         apply_ite (Client.IdentityURL), apply_ite (Client.explicitURLs), ite_self]
     · simp +decide [normalizeExplicitURLs, Client.serviceURL,
         apply_ite (Client.IdentityURL), apply_ite (Client.explicitURLs), ite_self]
       exact ensureVersionPath_ne_empty (by decide) _)

/-- Witness for C7's amended statement at a pinned network URL without the
version path. -/
theorem pinned_url_normalization_witness :
    (NewClient [withServiceURL .network "https://networking.c3j9.conoha.io"]).serviceURL .network
      = "https://networking.c3j9.conoha.io/v2.0" := by
  have h := pinned_url_normalization .network "https://networking.c3j9.conoha.io"
  rw [h]
  decide

theorem findPublicURL_of_none_eligible (region : String) (eps : List Endpoint)
    (h : ∀ ep ∈ eps, eligibleEndpoint region ep = false) :
    findPublicURL region eps = "" := by
  induction eps with
  | nil => rfl
  | cons ep rest ih =>
    unfold findPublicURL
    rw [if_neg (by simp [h ep (by simp)])]
    exact ih (fun q hq => h q (by simp [hq]))

theorem findPublicURL_first (region : String) (pre : List Endpoint) (ep : Endpoint)
    (post : List Endpoint)
    (hpre : ∀ p ∈ pre, eligibleEndpoint region p = false)
    (hep : eligibleEndpoint region ep = true) :
    findPublicURL region (pre ++ ep :: post) = trimRightSlashes ep.URL := by
  induction pre with
  | nil =>
    rw [List.nil_append]
    unfold findPublicURL
    rw [if_pos hep]
  | cons p rest ih =>
    rw [List.cons_append]
    unfold findPublicURL
    rw [if_neg (by simp [hpre p (by simp)])]
    exact ih (fun q hq => hpre q (by simp [hq]))

theorem eligibleEndpoint_empty_region (ep : Endpoint) :
    eligibleEndpoint "" ep = (ep.Interface = "public" : Bool) := by
  simp [eligibleEndpoint]

/-- Counterexample to C8 as stated: with two compute entries in the catalog,
discovery does not stop after the first assignment — the second entry
overwrites the first, so the family's URL receives two assignments and the
last entry wins. -/
theorem catalog_single_assignment_counterexample :
    (updateEndpointsFromCatalog newClientInit [computeEntryA, computeEntryB]).ComputeURL =
      "https://b.example.com/v2.1" ∧
    (updateEndpointsFromCatalog newClientInit [computeEntryA]).ComputeURL =
      "https://a.example.com/v2.1" ∧
    "https://b.example.com/v2.1" ≠ "https://a.example.com/v2.1" := by
  refine ⟨by decide, by decide, by decide⟩

/-- C8 (amended): with a configured region, a family's URL is updated only
from an endpoint that is `public` and whose region or region-id tag equals
that region — an entry all of whose public endpoints carry other regions
leaves the client unchanged; with no region configured any public endpoint
is eligible; within one entry the first eligible endpoint wins.  (Across
several entries of the same service type each eligible entry assigns in
turn, so the last one wins — discovery does not stop after one assignment
per family; see the counterexample.) -/
theorem catalog_region_filtering (c : Client) (svc : ServiceCatalog) :
    (c.Region ≠ "" →
      (∀ ep ∈ svc.Endpoints, ep.Interface = "public" →
        ep.Region ≠ c.Region ∧ ep.RegionID ≠ c.Region) →
      updateOneCatalogEntry c svc = c) ∧
    (c.Region = "" → ∀ pre ep post, svc.Endpoints = pre ++ ep :: post →
      (∀ p ∈ pre, p.Interface ≠ "public") → ep.Interface = "public" →
      findPublicURL c.Region svc.Endpoints = trimRightSlashes ep.URL) ∧
    (∀ pre ep post, svc.Endpoints = pre ++ ep :: post →
      (∀ p ∈ pre, eligibleEndpoint c.Region p = false) →
      eligibleEndpoint c.Region ep = true →
      findPublicURL c.Region svc.Endpoints = trimRightSlashes ep.URL) := by
  refine ⟨?_, ?_, ?_⟩
  · intro hreg h
    have hfind : findPublicURL c.Region svc.Endpoints = "" := by
      apply findPublicURL_of_none_eligible
      intro ep hmem
      by_cases hif : ep.Interface = "public"
      · have h2 := h ep hmem hif
        simp [eligibleEndpoint, hif, hreg, h2.1, h2.2]
      · simp [eligibleEndpoint, hif]
    unfold updateOneCatalogEntry
    rw [hfind]
    unfold updateCatalogDispatch
    rw [if_pos rfl]
  · intro hreg pre ep post heps hpre hep
    rw [heps, hreg]
    exact findPublicURL_first "" pre ep post
      (fun p hp => by simp [eligibleEndpoint_empty_region, hpre p hp])
      (by simp [eligibleEndpoint_empty_region, hep])
  · intro pre ep post heps hpre hep
    rw [heps]
    exact findPublicURL_first c.Region pre ep post hpre hep

/-- Witness for C8: a region-mismatched entry leaves the client unchanged,
and with no region the first public endpoint wins. -/
theorem catalog_region_filtering_witness :
    (updateOneCatalogEntry regionC3j2Client wrongRegionEntry = regionC3j2Client) ∧
    (findPublicURL "" mixedEntry.Endpoints = "https://pub.example.com/v2.1") :=
  ⟨(catalog_region_filtering regionC3j2Client wrongRegionEntry).1 (by decide)
      (by decide),
   ((catalog_region_filtering noRegionClient mixedEntry).2.1 rfl
       [{ Interface := "internal", Region := "c3j1", URL := "https://int.example.com/v2.1" }]
       { Interface := "public", Region := "c3j1", URL := "https://pub.example.com/v2.1/" }
       [] rfl (by decide) rfl).trans (by decide)⟩

/-- C9: each of the five precondition violations — empty (canonicalized)
method, empty container, empty object name, empty key, non-positive expiry —
independently yields its own named validation failure (with the five Go
error messages pairwise distinct), before any HMAC work: the definition of
`GenerateTempURL` returns these errors ahead of the HMAC computation.  A
signed URL is produced only when all five preconditions hold. -/
theorem temp_url_validation (c : Client) (m container objectName key : String)
    (expires : Int) :
    (asciiToUpper (trimSpace m) = "" →
      GenerateTempURL c m container objectName key expires = .error .methodRequired) ∧
    (asciiToUpper (trimSpace m) ≠ "" → container = "" →
      GenerateTempURL c m container objectName key expires = .error .containerRequired) ∧
    (asciiToUpper (trimSpace m) ≠ "" → container ≠ "" → objectName = "" →
      GenerateTempURL c m container objectName key expires = .error .objectNameRequired) ∧
    (asciiToUpper (trimSpace m) ≠ "" → container ≠ "" → objectName ≠ "" → key = "" →
      GenerateTempURL c m container objectName key expires = .error .keyRequired) ∧
    (asciiToUpper (trimSpace m) ≠ "" → container ≠ "" → objectName ≠ "" → key ≠ "" →
      expires ≤ 0 →
      GenerateTempURL c m container objectName key expires = .error .expiresNotPositive) ∧
    (∀ s, GenerateTempURL c m container objectName key expires = .ok s →
      asciiToUpper (trimSpace m) ≠ "" ∧ container ≠ "" ∧ objectName ≠ "" ∧
      key ≠ "" ∧ 0 < expires) ∧
    [validationMessage .methodRequired, validationMessage .containerRequired,
     validationMessage .objectNameRequired, validationMessage .keyRequired,
     validationMessage .expiresNotPositive].Nodup := by
  refine ⟨?_, ?_, ?_, ?_, ?_, ?_, by decide⟩
  · intro h1
    simp only [GenerateTempURL]
    rw [if_pos h1]
  · intro h1 h2
    simp only [GenerateTempURL]
    rw [if_neg h1, if_pos h2]
  · intro h1 h2 h3
    simp only [GenerateTempURL]
    rw [if_neg h1, if_neg h2, if_pos h3]
  · intro h1 h2 h3 h4
    simp only [GenerateTempURL]
    rw [if_neg h1, if_neg h2, if_neg h3, if_pos h4]
  · intro h1 h2 h3 h4 h5
    simp only [GenerateTempURL]
    rw [if_neg h1, if_neg h2, if_neg h3, if_neg h4, if_pos h5]
  · intro s hs
    simp only [GenerateTempURL] at hs
    by_cases h1 : asciiToUpper (trimSpace m) = ""
    · rw [if_pos h1] at hs; exact absurd hs (by simp)
    rw [if_neg h1] at hs
    by_cases h2 : container = ""
    · rw [if_pos h2] at hs; exact absurd hs (by simp)
    rw [if_neg h2] at hs
    by_cases h3 : objectName = ""
    · rw [if_pos h3] at hs; exact absurd hs (by simp)
    rw [if_neg h3] at hs
    by_cases h4 : key = ""
    · rw [if_pos h4] at hs; exact absurd hs (by simp)
    rw [if_neg h4] at hs
    by_cases h5 : expires ≤ 0
    · rw [if_pos h5] at hs; exact absurd hs (by simp)
    exact ⟨h1, h2, h3, h4, by omega⟩

/-- Witness for C9: each violation at concrete arguments. -/
theorem temp_url_validation_witness :
    GenerateTempURL newClientInit "" "c" "o" "k" 1 = .error .methodRequired ∧
    GenerateTempURL newClientInit "GET" "" "o" "k" 1 = .error .containerRequired ∧
    GenerateTempURL newClientInit "GET" "c" "" "k" 1 = .error .objectNameRequired ∧
    GenerateTempURL newClientInit "GET" "c" "o" "" 1 = .error .keyRequired ∧
    GenerateTempURL newClientInit "GET" "c" "o" "k" 0 = .error .expiresNotPositive :=
  ⟨(temp_url_validation newClientInit "" "c" "o" "k" 1).1 (by decide),
   (temp_url_validation newClientInit "GET" "" "o" "k" 1).2.1 (by decide) rfl,
   (temp_url_validation newClientInit "GET" "c" "" "k" 1).2.2.1 (by decide)
     (by decide) rfl,
   (temp_url_validation newClientInit "GET" "c" "o" "" 1).2.2.2.1 (by decide)
     (by decide) (by decide) rfl,
   (temp_url_validation newClientInit "GET" "c" "o" "k" 0).2.2.2.2.1 (by decide)
     (by decide) (by decide) (by decide) (by decide)⟩

set_option maxRecDepth 100000 in
theorem tempURLBaseEval :
    GenerateTempURL tempURLClient "GET" "c" "o.txt" "key" 1700000000 = .ok tempURLBase := by
  decide

set_option maxRecDepth 100000 in
theorem tempURLLowerEval :
    GenerateTempURL tempURLClient "get" "c" "o.txt" "key" 1700000000 = .ok tempURLBase := by
  decide

set_option maxRecDepth 100000 in
theorem tempURLMethodVarEval :
    GenerateTempURL tempURLClient "PUT" "c" "o.txt" "key" 1700000000 =
      .ok "https://object-storage.c3j1.conoha.io/v1/AUTH_tenant123/c/o.txt?temp_url_expires=1700000000&temp_url_sig=ef0340bd6478c73680cf6615729c1f5b7dab3de8" := by
  decide

set_option maxRecDepth 100000 in
theorem tempURLContainerVarEval :
    GenerateTempURL tempURLClient "GET" "c2" "o.txt" "key" 1700000000 =
      .ok "https://object-storage.c3j1.conoha.io/v1/AUTH_tenant123/c2/o.txt?temp_url_expires=1700000000&temp_url_sig=c2e813de82be24953000b880fb531f7db3031203" := by
  decide

set_option maxRecDepth 100000 in
theorem tempURLObjectVarEval :
    GenerateTempURL tempURLClient "GET" "c" "o2.txt" "key" 1700000000 =
      .ok "https://object-storage.c3j1.conoha.io/v1/AUTH_tenant123/c/o2.txt?temp_url_expires=1700000000&temp_url_sig=2216f6fd0ed58cb558304956f731ac70b399181a" := by
  decide

set_option maxRecDepth 100000 in
theorem tempURLKeyVarEval :
    GenerateTempURL tempURLClient "GET" "c" "o.txt" "key2" 1700000000 =
      .ok "https://object-storage.c3j1.conoha.io/v1/AUTH_tenant123/c/o.txt?temp_url_expires=1700000000&temp_url_sig=4db5689b030344fa05acfde004e0f6064a674236" := by
  decide

set_option maxRecDepth 100000 in
theorem tempURLExpiryVarEval :
    GenerateTempURL tempURLClient "GET" "c" "o.txt" "key" 1700000001 =
      .ok "https://object-storage.c3j1.conoha.io/v1/AUTH_tenant123/c/o.txt?temp_url_expires=1700000001&temp_url_sig=e97ffe2ec16be806cd3aa0eb91e72fcf714af24c" := by
  decide

set_option maxRecDepth 100000 in
theorem tempURLHmacEval :
    hexEncode (hmacSha1 (utf8Bytes "key")
        (utf8Bytes ("GET" ++ "\n" ++ "1700000000" ++ "\n" ++ "/v1/AUTH_tenant123/c/o.txt"))) =
      "9d286571b8e51f23f06c1b6d16384d37e557397b" := by
  decide

/-- Counterexample to C6 as stated: the method argument is trimmed and
upper-cased before signing, so changing the method from `"GET"` to `"get"`
changes one argument yet produces the identical signed URL and signature. -/
theorem temp_url_sensitivity_counterexample :
    GenerateTempURL tempURLClient "GET" "c" "o.txt" "key" 1700000000 = .ok tempURLBase ∧
    GenerateTempURL tempURLClient "get" "c" "o.txt" "key" 1700000000 = .ok tempURLBase ∧
    "get" ≠ "GET" :=
  ⟨tempURLBaseEval, tempURLLowerEval, by decide⟩

/-- C6 (amended): `GenerateTempURL` is a pure function of
`(configuration, method, container, objectName, key, expires)`, so repeated
calls with identical arguments return identical signed URLs; at the example
input the signature is exactly the hex HMAC-SHA1 over
`METHOD\nEXPIRES\nPATH` keyed by the secret; and changing any one of
container, object name, key or expiry — or changing the method to a value
with a different trimmed upper-cased form — changes the signature, while
method changes that canonicalize identically do not (see the
counterexample). -/
theorem temp_url_determinism_and_sensitivity :
    (∀ (c : Client) (m co o k : String) (e : Int),
      GenerateTempURL c m co o k e = GenerateTempURL c m co o k e) ∧
    GenerateTempURL tempURLClient "GET" "c" "o.txt" "key" 1700000000 = .ok tempURLBase ∧
    hexEncode (hmacSha1 (utf8Bytes "key")
        (utf8Bytes ("GET" ++ "\n" ++ "1700000000" ++ "\n" ++ "/v1/AUTH_tenant123/c/o.txt"))) =
      "9d286571b8e51f23f06c1b6d16384d37e557397b" ∧
    containsStr tempURLBase "9d286571b8e51f23f06c1b6d16384d37e557397b" = true ∧
    (GenerateTempURL tempURLClient "PUT" "c" "o.txt" "key" 1700000000 =
      .ok "https://object-storage.c3j1.conoha.io/v1/AUTH_tenant123/c/o.txt?temp_url_expires=1700000000&temp_url_sig=ef0340bd6478c73680cf6615729c1f5b7dab3de8" ∧
     "ef0340bd6478c73680cf6615729c1f5b7dab3de8" ≠ "9d286571b8e51f23f06c1b6d16384d37e557397b") ∧
    (GenerateTempURL tempURLClient "GET" "c2" "o.txt" "key" 1700000000 =
      .ok "https://object-storage.c3j1.conoha.io/v1/AUTH_tenant123/c2/o.txt?temp_url_expires=1700000000&temp_url_sig=c2e813de82be24953000b880fb531f7db3031203" ∧
     "c2e813de82be24953000b880fb531f7db3031203" ≠ "9d286571b8e51f23f06c1b6d16384d37e557397b") ∧
    (GenerateTempURL tempURLClient "GET" "c" "o2.txt" "key" 1700000000 =
      .ok "https://object-storage.c3j1.conoha.io/v1/AUTH_tenant123/c/o2.txt?temp_url_expires=1700000000&temp_url_sig=2216f6fd0ed58cb558304956f731ac70b399181a" ∧
     "2216f6fd0ed58cb558304956f731ac70b399181a" ≠ "9d286571b8e51f23f06c1b6d16384d37e557397b") ∧
    (GenerateTempURL tempURLClient "GET" "c" "o.txt" "key2" 1700000000 =
      .ok "https://object-storage.c3j1.conoha.io/v1/AUTH_tenant123/c/o.txt?temp_url_expires=1700000000&temp_url_sig=4db5689b030344fa05acfde004e0f6064a674236" ∧
     "4db5689b030344fa05acfde004e0f6064a674236" ≠ "9d286571b8e51f23f06c1b6d16384d37e557397b") ∧
    (GenerateTempURL tempURLClient "GET" "c" "o.txt" "key" 1700000001 =
      .ok "https://object-storage.c3j1.conoha.io/v1/AUTH_tenant123/c/o.txt?temp_url_expires=1700000001&temp_url_sig=e97ffe2ec16be806cd3aa0eb91e72fcf714af24c" ∧
     "e97ffe2ec16be806cd3aa0eb91e72fcf714af24c" ≠ "9d286571b8e51f23f06c1b6d16384d37e557397b") :=
  ⟨fun c m co o k e => rfl, tempURLBaseEval, tempURLHmacEval, by decide,
   ⟨tempURLMethodVarEval, by decide⟩, ⟨tempURLContainerVarEval, by decide⟩,
   ⟨tempURLObjectVarEval, by decide⟩, ⟨tempURLKeyVarEval, by decide⟩,
   ⟨tempURLExpiryVarEval, by decide⟩⟩

end Conoha
